import Mathlib

/-!
Shallow embedding of the Desktop_Kiky overlay companion (src/script.py).

Python floats are modelled as exact rationals, timestamps as integer
milliseconds (QTime.msecsTo a b = b - a), and the random draws
(random.uniform, random.randint, random.choice, pick_offscreen_point)
as explicit parameters.  math.hypot and math.degrees(math.atan2 ..)
return irrational values, so they are passed in as oracle parameters
(hyp, atd); no claim depends on their numeric value.  I/O side effects
(print, repaint, QCursor.setPos target hardware, timer firing) are
modelled by state fields recording what the code set.
-/

namespace Kiky

/-- Python int() applied to a float: truncation toward zero. -/
def pyInt (q : ℚ) : ℤ := if 0 ≤ q then Int.floor q else Int.ceil q

/-- A paw-trace entry, the dict appended to self.paw_traces. -/
structure Paw where
  x : ℚ
  y : ℚ
  angle : ℚ
  birth : ℤ
deriving DecidableEq

/-- The mutable state of MouseHook plus the DesktopSprite fields the
claims are about.  overrideDepth models the Qt override-cursor stack
(setOverrideCursor pushes BlankCursor, restoreOverrideCursor pops); the
pointer glyph is visible exactly when the stack is empty. -/
structure SpriteState where
  sprite_x : ℚ
  sprite_y : ℚ
  vx : ℚ
  vy : ℚ
  prev_vx : ℚ
  prev_vy : ℚ
  paw_traces : List Paw
  last_paw_time : ℤ
  paw_step_index : ℕ
  rampage_mode : Bool
  dialog_factor : ℚ
  takeover_factor : ℚ
  rampage_exit_running : Bool
  rampage_exit_start_time : ℤ
  rampage_exit_start_pos : ℤ × ℤ
  rampage_exit_end_pos : ℤ × ℤ
  effect_active : Bool
  effect_duration : ℤ
  effect_start_time : ℤ
  cursor_move_start_time : Option ℤ
  cursor_move_duration : ℚ
  from_pos : Option (ℤ × ℤ)
  to_pos : Option (ℤ × ℤ)
  cursor_pos : ℤ × ℤ
  overrideDepth : ℕ
  hHook : Option ℕ
  dialog_visible : Bool
  dialog_timer_active : Bool
  dialog_timer_interval : ℤ
  hide_dialog_timer_active : Bool
  random_start_timer_active : Bool
  random_start_timer_interval : ℤ
  cursor_move_timer_active : Bool
  non_rampage_running : Bool
  non_rampage_run_start_time : ℤ
  non_rampage_start : ℤ × ℤ
  non_rampage_end : ℤ × ℤ
  non_rampage_can_trigger_run : Bool
deriving DecidableEq

/-- Tunable constants of DesktopSprite.__init__. -/
def accel : ℚ := 3 / 100
def friction : ℚ := 3 / 4
def parallax_factor : ℚ := 15 / 100
def fade_time : ℤ := 2000
def base_paw_interval : ℚ := 500
def min_paw_interval : ℚ := 200
def spawn_rate_factor : ℚ := 4
def original_dialog_min : ℚ := 5
def original_dialog_max : ℚ := 7
def original_takeover_min : ℚ := 30
def original_takeover_max : ℚ := 180
def min_factor : ℚ := 1 / 10
def rampage_exit_duration : ℚ := 3 / 2
def non_rampage_duration : ℚ := 5
/-- kiky_pixmap is scaled to 250 x 250, paw_pixmap to 50 x 50. -/
def kiky_width : ℤ := 250
def kiky_height : ℤ := 250
def paw_width : ℤ := 50
def paw_height : ℤ := 50

/-- The state right after DesktopSprite.__init__ runs at time 0
(last_paw_time is current time minus base_paw_interval). -/
def initState : SpriteState where
  sprite_x := 0
  sprite_y := 0
  vx := 0
  vy := 0
  prev_vx := 0
  prev_vy := 0
  paw_traces := []
  last_paw_time := -500
  paw_step_index := 0
  rampage_mode := false
  dialog_factor := 1
  takeover_factor := 1
  rampage_exit_running := false
  rampage_exit_start_time := 0
  rampage_exit_start_pos := (0, 0)
  rampage_exit_end_pos := (0, 0)
  effect_active := false
  effect_duration := 0
  effect_start_time := 0
  cursor_move_start_time := none
  cursor_move_duration := 0
  from_pos := none
  to_pos := none
  cursor_pos := (0, 0)
  overrideDepth := 0
  hHook := none
  dialog_visible := false
  dialog_timer_active := false
  dialog_timer_interval := 0
  hide_dialog_timer_active := false
  random_start_timer_active := false
  random_start_timer_interval := 0
  cursor_move_timer_active := false
  non_rampage_running := false
  non_rampage_run_start_time := 0
  non_rampage_start := (0, 0)
  non_rampage_end := (0, 0)
  non_rampage_can_trigger_run := true

/-- MouseHook.start: installs the low-level filter unless already
installed; SetWindowsHookExW result modelled as handle 1. -/
def MouseHook.start (s : SpriteState) : SpriteState :=
  if s.hHook.isSome then s else { s with hHook := some 1 }

/-- MouseHook.stop: uninstalls the filter when installed, else no-op. -/
def MouseHook.stop (s : SpriteState) : SpriteState :=
  if s.hHook.isSome then { s with hHook := none } else s

/-- QApplication.setOverrideCursor(BlankCursor): push one override,
hiding the pointer glyph. -/
def setOverrideCursor (s : SpriteState) : SpriteState :=
  { s with overrideDepth := s.overrideDepth + 1 }

/-- QApplication.restoreOverrideCursor: pop one override (no-op on an
empty stack, via truncated subtraction). -/
def restoreOverrideCursor (s : SpriteState) : SpriteState :=
  { s with overrideDepth := s.overrideDepth - 1 }

/-- The factor update and wait draw of schedule_next_cursor_takeover:
factor = max(min_factor, factor * 0.9), then
wait = max(uniform(30 * factor, 180 * factor), 1.0), with the uniform
draw modelled as lo + u * (hi - lo) for u in [0, 1]. -/
def takeoverWait (factor u : ℚ) : ℚ × ℚ :=
  let f := max min_factor (factor * (9 / 10))
  let range_min := original_takeover_min * f
  let range_max := original_takeover_max * f
  let w := max (range_min + u * (range_max - range_min)) 1
  (f, w)

/-- The factor update and wait draw of schedule_next_dialog:
factor = max(min_factor, factor * 0.75), then
wait = max(uniform(5 * factor, 7 * factor), 1.0). -/
def dialogWait (factor u : ℚ) : ℚ × ℚ :=
  let f := max min_factor (factor * (3 / 4))
  let scaled_min := original_dialog_min * f
  let scaled_max := original_dialog_max * f
  let w := max (scaled_min + u * (scaled_max - scaled_min)) 1
  (f, w)

/-- DesktopSprite.schedule_next_cursor_takeover (u is the uniform draw). -/
def schedule_next_cursor_takeover (u : ℚ) (s : SpriteState) : SpriteState :=
  if ¬ s.rampage_mode then { s with random_start_timer_active := false }
  else
    let p := takeoverWait s.takeover_factor u
    { s with takeover_factor := p.1,
             random_start_timer_active := true,
             random_start_timer_interval := pyInt (p.2 * 1000) }

/-- DesktopSprite.schedule_next_dialog (u is the uniform draw). -/
def schedule_next_dialog (u : ℚ) (s : SpriteState) : SpriteState :=
  if ¬ s.rampage_mode then
    { s with dialog_timer_active := false, hide_dialog_timer_active := false }
  else
    let p := dialogWait s.dialog_factor u
    { s with dialog_factor := p.1,
             dialog_timer_active := true,
             dialog_timer_interval := pyInt (p.2 * 1000) }

/-- DesktopSprite.hide_dialog (u feeds the reschedule draw). -/
def hide_dialog (u : ℚ) (s : SpriteState) : SpriteState :=
  let s := { s with dialog_visible := false }
  if s.rampage_mode then schedule_next_dialog u s else s

/-- The first k statements of the try block of stop_cursor_takeover,
after its effect_active guard (k = 5 runs the whole block):
1 effect_active = False; 2 restoreOverrideCursor; 3 mouse_hook.stop;
4 cursor_move_timer.stop; 5 conditional reschedule. -/
def stopTryBody (u : ℚ) (k : ℕ) (s : SpriteState) : SpriteState :=
  if k = 0 then s else
  let s := { s with effect_active := false }
  if k = 1 then s else
  let s := restoreOverrideCursor s
  if k = 2 then s else
  let s := MouseHook.stop s
  if k = 3 then s else
  let s := { s with cursor_move_timer_active := false }
  if k = 4 then s else
  if s.rampage_mode then schedule_next_cursor_takeover u s else s

/-- DesktopSprite.stop_cursor_takeover with fault injection: inj = some k
means an exception is raised just before the (k+1)-th statement of the
try block, transferring control to the except handler, which runs
mouse_hook.stop() then restoreOverrideCursor(). -/
def stop_cursor_takeover_inj (u : ℚ) (inj : Option ℕ) (s : SpriteState) : SpriteState :=
  if ¬ s.effect_active then s
  else
    match inj with
    | none => stopTryBody u 5 s
    | some k => restoreOverrideCursor (MouseHook.stop (stopTryBody u k s))

/-- DesktopSprite.stop_cursor_takeover on the normal (no-exception) path. -/
def stop_cursor_takeover (u : ℚ) (s : SpriteState) : SpriteState :=
  stop_cursor_takeover_inj u none s

/-- DesktopSprite.start_cursor_takeover: now is the current time, dur
models random.randint(10, 15), center the primary-screen center. -/
def start_cursor_takeover (now : ℤ) (dur : ℤ) (center : ℤ × ℤ) (s : SpriteState) :
    SpriteState :=
  if ¬ s.rampage_mode then s
  else if s.effect_active then s
  else
    let s := { s with effect_active := true }
    let s := setOverrideCursor s
    let s := { s with effect_duration := dur, effect_start_time := now,
                      cursor_pos := center }
    let s := MouseHook.start s
    { s with cursor_move_start_time := none, cursor_move_duration := 0,
             from_pos := none, to_pos := none, cursor_move_timer_active := true }

/-- DesktopSprite.move_cursor_around: target models pick_random_target(),
dur models random.uniform(0.5, 2.0), u feeds the reschedule inside an
internal stop_cursor_takeover. -/
def move_cursor_around (now : ℤ) (target : ℤ × ℤ) (dur : ℚ) (u : ℚ)
    (s : SpriteState) : SpriteState :=
  if (now - s.effect_start_time) ≥ s.effect_duration * 1000 then
    stop_cursor_takeover u s
  else
    let s :=
      match s.cursor_move_start_time with
      | none =>
        { s with cursor_move_start_time := some now,
                 from_pos := some s.cursor_pos,
                 to_pos := some target,
                 cursor_move_duration := dur }
      | some _ => s
    let start := s.cursor_move_start_time.getD now
    let fp := s.from_pos.getD s.cursor_pos
    let tp := s.to_pos.getD s.cursor_pos
    let t : ℚ := ((now - start : ℤ) : ℚ) / (s.cursor_move_duration * 1000)
    if t ≥ 1 then
      { s with cursor_pos := tp, cursor_move_start_time := none }
    else
      let nx : ℚ := (fp.1 : ℚ) + ((tp.1 : ℚ) - (fp.1 : ℚ)) * t
      let ny : ℚ := (fp.2 : ℚ) + ((tp.2 : ℚ) - (fp.2 : ℚ)) * t
      { s with cursor_pos := (pyInt nx, pyInt ny) }

/-- DesktopSprite.rampage_on (u1, u2 feed the two schedule draws). -/
def rampage_on (u1 u2 : ℚ) (s : SpriteState) : SpriteState :=
  if s.rampage_mode then s
  else
    let s := { s with rampage_mode := true }
    let s := schedule_next_cursor_takeover u1 s
    schedule_next_dialog u2 s

/-- DesktopSprite.rampage_off: now is the current time, pick models
pick_offscreen_point(), u1 feeds the reschedule inside an internal
stop_cursor_takeover, u2 the one inside hide_dialog. -/
def rampage_off (now : ℤ) (pick : ℤ × ℤ) (u1 u2 : ℚ) (s : SpriteState) : SpriteState :=
  if ¬ s.rampage_mode then s
  else
    let s := if s.effect_active then stop_cursor_takeover u1 s else s
    let s := if s.dialog_visible then hide_dialog u2 s else s
    let s := { s with dialog_timer_active := false,
                      hide_dialog_timer_active := false,
                      random_start_timer_active := false }
    { s with rampage_exit_running := true,
             rampage_exit_start_time := now,
             rampage_exit_start_pos := (pyInt s.sprite_x, pyInt s.sprite_y),
             rampage_exit_end_pos := pick }

/-- DesktopSprite.finalize_rampage_off (the rampage_trigger_timer restart
is an I/O effect outside the modelled state). -/
def finalize_rampage_off (s : SpriteState) : SpriteState :=
  { s with rampage_mode := false, dialog_factor := 1, takeover_factor := 1,
           rampage_exit_running := false }

/-- The paw spawn interval of the rampage chase:
max(min_paw_interval, base_paw_interval / (1 + spawn_rate_factor * speed)). -/
def current_paw_interval (speed : ℚ) : ℚ :=
  max min_paw_interval (base_paw_interval / (1 + spawn_rate_factor * speed))

/-- The x velocity after the accelerate and friction statements of the
chase branch of update_sprite_position:
vx += (target_x - sprite_x) * accel; vx *= friction, with
target_x = cursor.x() - kiky_pixmap.width(). -/
def chaseVx (s : SpriteState) (cursor : ℤ × ℤ) : ℚ :=
  (s.vx + (((cursor.1 : ℚ) - (kiky_width : ℚ)) - s.sprite_x) * accel) * friction

/-- The y velocity after the accelerate and friction statements of the
chase branch, with target_y = cursor.y() - kiky_pixmap.height() // 2. -/
def chaseVy (s : SpriteState) (cursor : ℤ × ℤ) : ℚ :=
  (s.vy + (((cursor.2 : ℚ) - ((kiky_height / 2 : ℤ) : ℚ)) - s.sprite_y) * accel) * friction

/-- The x position after the two position statements of the chase
branch: sprite_x += vx - 1; sprite_x += vx * parallax_factor. -/
def chaseX (s : SpriteState) (cursor : ℤ × ℤ) : ℚ :=
  s.sprite_x + chaseVx s cursor - 1 + chaseVx s cursor * parallax_factor

/-- The y position after the two position statements of the chase
branch: sprite_y += vy; sprite_y += vy * parallax_factor. -/
def chaseY (s : SpriteState) (cursor : ℤ × ℤ) : ℚ :=
  s.sprite_y + chaseVy s cursor + chaseVy s cursor * parallax_factor

/-- DesktopSprite.update_sprite_position.  hyp is an oracle for
math.hypot and atd one for math.degrees(math.atan2 ..); now the current
time and cursor the QCursor position. -/
def update_sprite_position (hyp atd : ℚ → ℚ → ℚ) (now : ℤ) (cursor : ℤ × ℤ)
    (s : SpriteState) : SpriteState :=
  if s.rampage_exit_running then
    let elapsed_ms : ℚ := ((now - s.rampage_exit_start_time : ℤ) : ℚ)
    let t := elapsed_ms / (rampage_exit_duration * 1000)
    if t ≥ 1 then
      finalize_rampage_off
        { s with sprite_x := (s.rampage_exit_end_pos.1 : ℚ),
                 sprite_y := (s.rampage_exit_end_pos.2 : ℚ) }
    else
      let sx : ℚ := (s.rampage_exit_start_pos.1 : ℚ)
      let sy : ℚ := (s.rampage_exit_start_pos.2 : ℚ)
      let ex : ℚ := (s.rampage_exit_end_pos.1 : ℚ)
      let ey : ℚ := (s.rampage_exit_end_pos.2 : ℚ)
      { s with sprite_x := sx + (ex - sx) * t, sprite_y := sy + (ey - sy) * t }
  else if s.rampage_mode then
    let vx := chaseVx s cursor
    let vy := chaseVy s cursor
    let x := chaseX s cursor
    let y := chaseY s cursor
    let speed := hyp vx vy
    let acceleration := hyp (vx - s.prev_vx) (vy - s.prev_vy) / (16 / 1000)
    let s := { s with vx := vx, vy := vy, sprite_x := x, sprite_y := y }
    let s : SpriteState :=
      if speed > 1 / 10 ∨ acceleration > 1 / 2 then
        if ((now - s.last_paw_time : ℤ) : ℚ) ≥ current_paw_interval speed then
          let paw_y0 : ℚ := s.sprite_y + ((kiky_height / 2 : ℤ) : ℚ)
          let paw_y : ℚ := paw_y0 + (if s.paw_step_index % 2 = 1 then (10 : ℚ) else 0)
          { s with paw_traces := s.paw_traces ++
                     [⟨s.sprite_x + ((kiky_width / 2 : ℤ) : ℚ), paw_y, atd vy vx, now⟩],
                   last_paw_time := now,
                   paw_step_index := s.paw_step_index + 1 }
        else s
      else s
    { s with prev_vx := s.vx, prev_vy := s.vy }
  else
    if s.non_rampage_running then
      let elapsed_s : ℚ := ((now - s.non_rampage_run_start_time : ℤ) : ℚ) / 1000
      let t := elapsed_s / non_rampage_duration
      let s : SpriteState :=
        if t ≥ 1 then
          -- the 500 ms QTimer.singleShot(move_sprite_offscreen) it arms
          -- is delivered as a separate trace event
          { s with sprite_x := (s.non_rampage_end.1 : ℚ),
                   sprite_y := (s.non_rampage_end.2 : ℚ),
                   non_rampage_running := false,
                   non_rampage_can_trigger_run := true }
        else
          let sx : ℚ := (s.non_rampage_start.1 : ℚ)
          let sy : ℚ := (s.non_rampage_start.2 : ℚ)
          let ex : ℚ := (s.non_rampage_end.1 : ℚ)
          let ey : ℚ := (s.non_rampage_end.2 : ℚ)
          { s with sprite_x := sx + (ex - sx) * t, sprite_y := sy + (ey - sy) * t }
      let dx : ℚ := ((s.non_rampage_end.1 - s.non_rampage_start.1 : ℤ) : ℚ)
      let dy : ℚ := ((s.non_rampage_end.2 - s.non_rampage_start.2 : ℤ) : ℚ)
      let speed := hyp dx dy / non_rampage_duration
      let s : SpriteState :=
        if speed > 1 / 10 then
          let interval :=
            max min_paw_interval
              (base_paw_interval / (1 + spawn_rate_factor * (speed / 50)))
          if ((now - s.last_paw_time : ℤ) : ℚ) ≥ interval then
            let paw_y0 : ℚ := s.sprite_y + ((kiky_height / 2 : ℤ) : ℚ)
            let paw_y : ℚ := paw_y0 + (if s.paw_step_index % 2 = 1 then (10 : ℚ) else 0)
            { s with paw_traces := s.paw_traces ++
                       [⟨s.sprite_x + ((kiky_width / 2 : ℤ) : ℚ), paw_y, atd dy dx, now⟩],
                     last_paw_time := now,
                     paw_step_index := s.paw_step_index + 1 }
          else s
        else s
      { s with vx := 0, vy := 0, prev_vx := 0, prev_vy := 0 }
    else
      { s with sprite_x := -9999, sprite_y := -9999 }

/-- DesktopSprite.move_sprite_offscreen. -/
def move_sprite_offscreen (s : SpriteState) : SpriteState :=
  if ¬ s.non_rampage_running then
    { s with sprite_x := -9999, sprite_y := -9999 }
  else s

/-- DesktopSprite.trigger_non_rampage_run: p1, p2 model the two
pick_offscreen_point() draws. -/
def trigger_non_rampage_run (now : ℤ) (p1 p2 : ℤ × ℤ) (s : SpriteState) : SpriteState :=
  if s.rampage_mode ∨ s.rampage_exit_running ∨ ¬ s.non_rampage_can_trigger_run then s
  else
    { s with non_rampage_can_trigger_run := false,
             non_rampage_start := p1,
             non_rampage_end := p2,
             non_rampage_running := true,
             non_rampage_run_start_time := now,
             sprite_x := (p1.1 : ℚ),
             sprite_y := (p1.2 : ℚ) }

/-- The opacity painter.setOpacity receives for a live paw in paintEvent:
(255 - int(255 * elapsed / fade_time)) / 255. -/
def pawOpacity (now : ℤ) (p : Paw) : ℚ :=
  ((255 - pyInt (255 * ((now - p.birth : ℤ) : ℚ) / (fade_time : ℚ)) : ℤ) : ℚ) / 255

/-- The paw list surviving a paintEvent at time now: the loop removes
every paw whose elapsed time strictly exceeds fade_time. -/
def paintPassSurviving (now : ℤ) (traces : List Paw) : List Paw :=
  traces.filter (fun p => decide (¬ now - p.birth > fade_time))

/-- The paws a paintEvent at time now actually draws, with the opacity
each is drawn at. -/
def paintPassDrawn (now : ℤ) (traces : List Paw) : List (Paw × ℚ) :=
  (paintPassSurviving now traces).map (fun p => (p, pawOpacity now p))

/-- The bounding rectangle (x, y, w, h) updateWindowMask unions into the
mask for one paw: centered on the paw, paw_pixmap is 50 x 50. -/
def pawMaskRect (p : Paw) : ℤ × ℤ × ℤ × ℤ :=
  (pyInt (p.x - ((paw_width / 2 : ℤ) : ℚ)),
   pyInt (p.y - ((paw_height / 2 : ℤ) : ℚ)), paw_width, paw_height)

/-- The paw rectangles of DesktopSprite.updateWindowMask: the loop visits
every element of paw_traces, with no expiry check. -/
def maskPaws (traces : List Paw) : List (ℤ × ℤ × ℤ × ℤ) :=
  traces.map pawMaskRect

/-- True for the code points Python str.strip removes (the ASCII
whitespace cases of the Unicode definition). -/
def isPySpace (c : ℕ) : Bool :=
  c = 32 ∨ c = 9 ∨ c = 10 ∨ c = 13 ∨ c = 11 ∨ c = 12

/-- Python str.strip(): drop leading and trailing whitespace. -/
def pyStrip (l : List ℕ) : List ℕ :=
  ((l.dropWhile isPySpace).reverse.dropWhile isPySpace).reverse

/-- Whether a byte is a UTF-8 continuation byte (0x80 - 0xBF). -/
def utf8Cont (b : ℕ) : Bool := 128 ≤ b ∧ b ≤ 191

/-- Strict UTF-8 decoding as bytes.decode(utf-8) performs it: code
points out, or none for any malformed sequence (overlong encodings,
surrogates and out-of-range lead bytes all rejected). -/
def utf8Decode : List ℕ → Option (List ℕ)
  | [] => some []
  | b :: rest =>
    if b < 128 then (utf8Decode rest).map (b :: ·)
    else if b < 194 then none
    else if b ≤ 223 then
      match rest with
      | c :: rest2 =>
        if utf8Cont c then (utf8Decode rest2).map (((b - 192) * 64 + (c - 128)) :: ·)
        else none
      | [] => none
    else if b ≤ 239 then
      match rest with
      | c :: d :: rest3 =>
        if (if b = 224 then 160 ≤ c ∧ c ≤ 191
            else if b = 237 then 128 ≤ c ∧ c ≤ 159
            else utf8Cont c) ∧ utf8Cont d then
          (utf8Decode rest3).map
            (((b - 224) * 4096 + (c - 128) * 64 + (d - 128)) :: ·)
        else none
      | _ => none
    else if b ≤ 244 then
      match rest with
      | c :: d :: e :: rest4 =>
        if (if b = 240 then 144 ≤ c ∧ c ≤ 191
            else if b = 244 then 128 ≤ c ∧ c ≤ 143
            else utf8Cont c) ∧ utf8Cont d ∧ utf8Cont e then
          (utf8Decode rest4).map
            (((b - 240) * 262144 + (c - 128) * 4096 + (d - 128) * 64 + (e - 128)) :: ·)
        else none
      | _ => none
    else none

/-- The code points of the exact trigger literal of handle_broadcast. -/
def giftsCollected : List ℕ :=
  [71, 105, 102, 116, 115, 32, 67, 111, 108, 108, 101, 99, 116, 101, 100, 33]

/-- DesktopSprite.handle_broadcast over the pending datagrams (each a
byte list).  A datagram that is not valid UTF-8 makes data.decode raise
UnicodeDecodeError, which nothing in the handler catches: modelled as
Except.error.  now, pick, u1, u2 feed any rampage_off call. -/
def handle_broadcast (now : ℤ) (pick : ℤ × ℤ) (u1 u2 : ℚ)
    (datagrams : List (List ℕ)) (s : SpriteState) : Except Unit SpriteState :=
  match datagrams with
  | [] => Except.ok s
  | d :: ds =>
    match utf8Decode d with
    | none => Except.error ()
    | some cps =>
      let message := pyStrip cps
      let s := if message = giftsCollected then rampage_off now pick u1 u2 s else s
      handle_broadcast now pick u1 u2 ds s

/-! Auxiliary notions used to state and prove the claims. -/

/-- The arguments of one cursor_move_timer tick: current time, the
pick_random_target draw, the uniform leg-duration draw and the uniform
draw of any reschedule triggered by an internal stop. -/
structure DriveArg where
  now : ℤ
  target : ℤ × ℤ
  dur : ℚ
  u : ℚ

/-- A full takeover session: start_cursor_takeover, then any number of
move_cursor_around ticks, then stop_cursor_takeover (with optional
fault injection in the final stop). -/
def takeoverSession (s : SpriteState) (now dur : ℤ) (center : ℤ × ℤ)
    (drives : List DriveArg) (inj : Option ℕ) (u : ℚ) : SpriteState :=
  stop_cursor_takeover_inj u inj
    (drives.foldl (fun s a => move_cursor_around a.now a.target a.dur a.u s)
      (start_cursor_takeover now dur center s))

/-- The pointer-resource invariant: while a takeover effect is active
exactly one BlankCursor override is pushed and the hook is installed;
otherwise the pointer is visible and the hook uninstalled. -/
def CursorInv (s : SpriteState) : Prop :=
  (s.effect_active = true → s.overrideDepth = 1 ∧ s.hHook = some 1) ∧
  (s.effect_active = false → s.overrideDepth = 0 ∧ s.hHook = none)

/-- One reschedule call, in either scheduler. -/
inductive SchedOp where
  | dial (u : ℚ)
  | take (u : ℚ)

/-- Apply one reschedule call. -/
def applySched : SchedOp → SpriteState → SpriteState
  | SchedOp.dial u, s => schedule_next_dialog u s
  | SchedOp.take u, s => schedule_next_cursor_takeover u s

/-- Apply a sequence of reschedule calls in order. -/
def runScheds (ops : List SchedOp) (s : SpriteState) : SpriteState :=
  ops.foldl (fun s o => applySched o s) s

/-- The events that drive the non-rampage (ScriptedRun) machinery: an
update_sprite_position tick, a non_rampage_timer trigger, and the
delivery of the 500 ms single-shot move_sprite_offscreen callback. -/
inductive NREvent where
  | tick (now : ℤ) (cursor : ℤ × ℤ)
  | trig (now : ℤ) (p1 p2 : ℤ × ℤ)
  | offscreen (now : ℤ)

/-- Dispatch one non-rampage event. -/
def nrStep (hyp atd : ℚ → ℚ → ℚ) : NREvent → SpriteState → SpriteState
  | NREvent.tick now c, s => update_sprite_position hyp atd now c s
  | NREvent.trig now p1 p2, s => trigger_non_rampage_run now p1 p2 s
  | NREvent.offscreen _, s => move_sprite_offscreen s

/-- The scripted-run invariant: whenever the trigger flag permits a new
run, no run is in flight. -/
def NRInv (s : SpriteState) : Prop :=
  s.non_rampage_can_trigger_run = true → s.non_rampage_running = false

/-! Concrete inputs used by counterexamples and witnesses. -/

/-- An oracle standing in for math.hypot in evaluations whose claim
does not depend on its value. -/
def hypZero : ℚ → ℚ → ℚ := fun _ _ => 0

/-- A reachable rampage-mode state (rampage_on has fired). -/
def rampageState : SpriteState := { initState with rampage_mode := true }

/-- A rampage state in mid-takeover with fractional sprite position. -/
def s2c : SpriteState :=
  { rampageState with
      sprite_x := 1 / 2, sprite_y := 0,
      effect_active := true, overrideDepth := 1, hHook := some 1 }

/-- A paw mark born at time 0 at the origin. -/
def mark0 : Paw := ⟨0, 0, 0, 0⟩

/-- A rampage state carrying the mark born at time 0. -/
def s6 : SpriteState := { rampageState with paw_traces := [mark0] }

/-- A state in the middle of the rampage exit retreat (rampage_mode is
still true there; finalize_rampage_off has not run yet). -/
def s10 : SpriteState :=
  { rampageState with rampage_exit_running := true,
                      rampage_exit_end_pos := (50, 50) }

/-- The trigger payload surrounded by whitespace: a space, the literal
text, a trailing newline (all ASCII bytes). -/
def wsGifts : List ℕ := 32 :: (giftsCollected ++ [10])

/-- An unrelated two-byte ASCII payload. -/
def otherMsg : List ℕ := [72, 105]

/-- A scripted run triggered at time 0, crossing to (1000, 1000). -/
def s91 : SpriteState := trigger_non_rampage_run 0 (0, 0) (1000, 1000) initState

/-- The state after the tick at 5000 ms that completes that run. -/
def s92 : SpriteState := update_sprite_position hypZero hypZero 5000 (0, 0) s91

/-- The state after a second trigger only 100 ms after completion. -/
def s93 : SpriteState := trigger_non_rampage_run 5100 (0, 7) (7, 0) s92

/-! Projection lemmas: which of the claim-relevant fields each
operation leaves untouched, and the values of the fields it writes. -/

@[simp] theorem mhStart_sprite_x (s : SpriteState) :
    (MouseHook.start s).sprite_x = s.sprite_x := by
  unfold MouseHook.start
  split <;> rfl

@[simp] theorem mhStart_sprite_y (s : SpriteState) :
    (MouseHook.start s).sprite_y = s.sprite_y := by
  unfold MouseHook.start
  split <;> rfl

@[simp] theorem mhStart_vx (s : SpriteState) :
    (MouseHook.start s).vx = s.vx := by
  unfold MouseHook.start
  split <;> rfl

@[simp] theorem mhStart_vy (s : SpriteState) :
    (MouseHook.start s).vy = s.vy := by
  unfold MouseHook.start
  split <;> rfl

@[simp] theorem mhStart_prev_vx (s : SpriteState) :
    (MouseHook.start s).prev_vx = s.prev_vx := by
  unfold MouseHook.start
  split <;> rfl

@[simp] theorem mhStart_prev_vy (s : SpriteState) :
    (MouseHook.start s).prev_vy = s.prev_vy := by
  unfold MouseHook.start
  split <;> rfl

@[simp] theorem mhStart_paw_traces (s : SpriteState) :
    (MouseHook.start s).paw_traces = s.paw_traces := by
  unfold MouseHook.start
  split <;> rfl

@[simp] theorem mhStart_last_paw_time (s : SpriteState) :
    (MouseHook.start s).last_paw_time = s.last_paw_time := by
  unfold MouseHook.start
  split <;> rfl

@[simp] theorem mhStart_paw_step_index (s : SpriteState) :
    (MouseHook.start s).paw_step_index = s.paw_step_index := by
  unfold MouseHook.start
  split <;> rfl

@[simp] theorem mhStart_rampage_mode (s : SpriteState) :
    (MouseHook.start s).rampage_mode = s.rampage_mode := by
  unfold MouseHook.start
  split <;> rfl

@[simp] theorem mhStart_dialog_factor (s : SpriteState) :
    (MouseHook.start s).dialog_factor = s.dialog_factor := by
  unfold MouseHook.start
  split <;> rfl

@[simp] theorem mhStart_takeover_factor (s : SpriteState) :
    (MouseHook.start s).takeover_factor = s.takeover_factor := by
  unfold MouseHook.start
  split <;> rfl

@[simp] theorem mhStart_rampage_exit_running (s : SpriteState) :
    (MouseHook.start s).rampage_exit_running = s.rampage_exit_running := by
  unfold MouseHook.start
  split <;> rfl

@[simp] theorem mhStart_rampage_exit_start_time (s : SpriteState) :
    (MouseHook.start s).rampage_exit_start_time = s.rampage_exit_start_time := by
  unfold MouseHook.start
  split <;> rfl

@[simp] theorem mhStart_rampage_exit_start_pos (s : SpriteState) :
    (MouseHook.start s).rampage_exit_start_pos = s.rampage_exit_start_pos := by
  unfold MouseHook.start
  split <;> rfl

@[simp] theorem mhStart_rampage_exit_end_pos (s : SpriteState) :
    (MouseHook.start s).rampage_exit_end_pos = s.rampage_exit_end_pos := by
  unfold MouseHook.start
  split <;> rfl

@[simp] theorem mhStart_effect_active (s : SpriteState) :
    (MouseHook.start s).effect_active = s.effect_active := by
  unfold MouseHook.start
  split <;> rfl

@[simp] theorem mhStart_overrideDepth (s : SpriteState) :
    (MouseHook.start s).overrideDepth = s.overrideDepth := by
  unfold MouseHook.start
  split <;> rfl

@[simp] theorem mhStart_dialog_visible (s : SpriteState) :
    (MouseHook.start s).dialog_visible = s.dialog_visible := by
  unfold MouseHook.start
  split <;> rfl

@[simp] theorem mhStart_non_rampage_running (s : SpriteState) :
    (MouseHook.start s).non_rampage_running = s.non_rampage_running := by
  unfold MouseHook.start
  split <;> rfl

@[simp] theorem mhStart_non_rampage_run_start_time (s : SpriteState) :
    (MouseHook.start s).non_rampage_run_start_time = s.non_rampage_run_start_time := by
  unfold MouseHook.start
  split <;> rfl

@[simp] theorem mhStart_non_rampage_can_trigger_run (s : SpriteState) :
    (MouseHook.start s).non_rampage_can_trigger_run = s.non_rampage_can_trigger_run := by
  unfold MouseHook.start
  split <;> rfl

@[simp] theorem mhStart_non_rampage_start (s : SpriteState) :
    (MouseHook.start s).non_rampage_start = s.non_rampage_start := by
  unfold MouseHook.start
  split <;> rfl

@[simp] theorem mhStart_non_rampage_end (s : SpriteState) :
    (MouseHook.start s).non_rampage_end = s.non_rampage_end := by
  unfold MouseHook.start
  split <;> rfl

@[simp] theorem mhStop_sprite_x (s : SpriteState) :
    (MouseHook.stop s).sprite_x = s.sprite_x := by
  unfold MouseHook.stop
  split <;> rfl

@[simp] theorem mhStop_sprite_y (s : SpriteState) :
    (MouseHook.stop s).sprite_y = s.sprite_y := by
  unfold MouseHook.stop
  split <;> rfl

@[simp] theorem mhStop_vx (s : SpriteState) :
    (MouseHook.stop s).vx = s.vx := by
  unfold MouseHook.stop
  split <;> rfl

@[simp] theorem mhStop_vy (s : SpriteState) :
    (MouseHook.stop s).vy = s.vy := by
  unfold MouseHook.stop
  split <;> rfl

@[simp] theorem mhStop_prev_vx (s : SpriteState) :
    (MouseHook.stop s).prev_vx = s.prev_vx := by
  unfold MouseHook.stop
  split <;> rfl

@[simp] theorem mhStop_prev_vy (s : SpriteState) :
    (MouseHook.stop s).prev_vy = s.prev_vy := by
  unfold MouseHook.stop
  split <;> rfl

@[simp] theorem mhStop_paw_traces (s : SpriteState) :
    (MouseHook.stop s).paw_traces = s.paw_traces := by
  unfold MouseHook.stop
  split <;> rfl

@[simp] theorem mhStop_last_paw_time (s : SpriteState) :
    (MouseHook.stop s).last_paw_time = s.last_paw_time := by
  unfold MouseHook.stop
  split <;> rfl

@[simp] theorem mhStop_paw_step_index (s : SpriteState) :
    (MouseHook.stop s).paw_step_index = s.paw_step_index := by
  unfold MouseHook.stop
  split <;> rfl

@[simp] theorem mhStop_rampage_mode (s : SpriteState) :
    (MouseHook.stop s).rampage_mode = s.rampage_mode := by
  unfold MouseHook.stop
  split <;> rfl

@[simp] theorem mhStop_dialog_factor (s : SpriteState) :
    (MouseHook.stop s).dialog_factor = s.dialog_factor := by
  unfold MouseHook.stop
  split <;> rfl

@[simp] theorem mhStop_takeover_factor (s : SpriteState) :
    (MouseHook.stop s).takeover_factor = s.takeover_factor := by
  unfold MouseHook.stop
  split <;> rfl

@[simp] theorem mhStop_rampage_exit_running (s : SpriteState) :
    (MouseHook.stop s).rampage_exit_running = s.rampage_exit_running := by
  unfold MouseHook.stop
  split <;> rfl

@[simp] theorem mhStop_rampage_exit_start_time (s : SpriteState) :
    (MouseHook.stop s).rampage_exit_start_time = s.rampage_exit_start_time := by
  unfold MouseHook.stop
  split <;> rfl

@[simp] theorem mhStop_rampage_exit_start_pos (s : SpriteState) :
    (MouseHook.stop s).rampage_exit_start_pos = s.rampage_exit_start_pos := by
  unfold MouseHook.stop
  split <;> rfl

@[simp] theorem mhStop_rampage_exit_end_pos (s : SpriteState) :
    (MouseHook.stop s).rampage_exit_end_pos = s.rampage_exit_end_pos := by
  unfold MouseHook.stop
  split <;> rfl

@[simp] theorem mhStop_effect_active (s : SpriteState) :
    (MouseHook.stop s).effect_active = s.effect_active := by
  unfold MouseHook.stop
  split <;> rfl

@[simp] theorem mhStop_overrideDepth (s : SpriteState) :
    (MouseHook.stop s).overrideDepth = s.overrideDepth := by
  unfold MouseHook.stop
  split <;> rfl

@[simp] theorem mhStop_dialog_visible (s : SpriteState) :
    (MouseHook.stop s).dialog_visible = s.dialog_visible := by
  unfold MouseHook.stop
  split <;> rfl

@[simp] theorem mhStop_non_rampage_running (s : SpriteState) :
    (MouseHook.stop s).non_rampage_running = s.non_rampage_running := by
  unfold MouseHook.stop
  split <;> rfl

@[simp] theorem mhStop_non_rampage_run_start_time (s : SpriteState) :
    (MouseHook.stop s).non_rampage_run_start_time = s.non_rampage_run_start_time := by
  unfold MouseHook.stop
  split <;> rfl

@[simp] theorem mhStop_non_rampage_can_trigger_run (s : SpriteState) :
    (MouseHook.stop s).non_rampage_can_trigger_run = s.non_rampage_can_trigger_run := by
  unfold MouseHook.stop
  split <;> rfl

@[simp] theorem mhStop_non_rampage_start (s : SpriteState) :
    (MouseHook.stop s).non_rampage_start = s.non_rampage_start := by
  unfold MouseHook.stop
  split <;> rfl

@[simp] theorem mhStop_non_rampage_end (s : SpriteState) :
    (MouseHook.stop s).non_rampage_end = s.non_rampage_end := by
  unfold MouseHook.stop
  split <;> rfl

@[simp] theorem mhStop_hHook (s : SpriteState) :
    (MouseHook.stop s).hHook = none := by
  unfold MouseHook.stop
  split <;> simp_all [Option.not_isSome_iff_eq_none]

@[simp] theorem socPush_sprite_x (s : SpriteState) :
    (setOverrideCursor s).sprite_x = s.sprite_x := rfl

@[simp] theorem socPush_sprite_y (s : SpriteState) :
    (setOverrideCursor s).sprite_y = s.sprite_y := rfl

@[simp] theorem socPush_vx (s : SpriteState) :
    (setOverrideCursor s).vx = s.vx := rfl

@[simp] theorem socPush_vy (s : SpriteState) :
    (setOverrideCursor s).vy = s.vy := rfl

@[simp] theorem socPush_prev_vx (s : SpriteState) :
    (setOverrideCursor s).prev_vx = s.prev_vx := rfl

@[simp] theorem socPush_prev_vy (s : SpriteState) :
    (setOverrideCursor s).prev_vy = s.prev_vy := rfl

@[simp] theorem socPush_paw_traces (s : SpriteState) :
    (setOverrideCursor s).paw_traces = s.paw_traces := rfl

@[simp] theorem socPush_last_paw_time (s : SpriteState) :
    (setOverrideCursor s).last_paw_time = s.last_paw_time := rfl

@[simp] theorem socPush_paw_step_index (s : SpriteState) :
    (setOverrideCursor s).paw_step_index = s.paw_step_index := rfl

@[simp] theorem socPush_rampage_mode (s : SpriteState) :
    (setOverrideCursor s).rampage_mode = s.rampage_mode := rfl

@[simp] theorem socPush_dialog_factor (s : SpriteState) :
    (setOverrideCursor s).dialog_factor = s.dialog_factor := rfl

@[simp] theorem socPush_takeover_factor (s : SpriteState) :
    (setOverrideCursor s).takeover_factor = s.takeover_factor := rfl

@[simp] theorem socPush_rampage_exit_running (s : SpriteState) :
    (setOverrideCursor s).rampage_exit_running = s.rampage_exit_running := rfl

@[simp] theorem socPush_rampage_exit_start_time (s : SpriteState) :
    (setOverrideCursor s).rampage_exit_start_time = s.rampage_exit_start_time := rfl

@[simp] theorem socPush_rampage_exit_start_pos (s : SpriteState) :
    (setOverrideCursor s).rampage_exit_start_pos = s.rampage_exit_start_pos := rfl

@[simp] theorem socPush_rampage_exit_end_pos (s : SpriteState) :
    (setOverrideCursor s).rampage_exit_end_pos = s.rampage_exit_end_pos := rfl

@[simp] theorem socPush_effect_active (s : SpriteState) :
    (setOverrideCursor s).effect_active = s.effect_active := rfl

@[simp] theorem socPush_hHook (s : SpriteState) :
    (setOverrideCursor s).hHook = s.hHook := rfl

@[simp] theorem socPush_dialog_visible (s : SpriteState) :
    (setOverrideCursor s).dialog_visible = s.dialog_visible := rfl

@[simp] theorem socPush_non_rampage_running (s : SpriteState) :
    (setOverrideCursor s).non_rampage_running = s.non_rampage_running := rfl

@[simp] theorem socPush_non_rampage_run_start_time (s : SpriteState) :
    (setOverrideCursor s).non_rampage_run_start_time = s.non_rampage_run_start_time := rfl

@[simp] theorem socPush_non_rampage_can_trigger_run (s : SpriteState) :
    (setOverrideCursor s).non_rampage_can_trigger_run = s.non_rampage_can_trigger_run := rfl

@[simp] theorem socPush_non_rampage_start (s : SpriteState) :
    (setOverrideCursor s).non_rampage_start = s.non_rampage_start := rfl

@[simp] theorem socPush_non_rampage_end (s : SpriteState) :
    (setOverrideCursor s).non_rampage_end = s.non_rampage_end := rfl

@[simp] theorem socPop_sprite_x (s : SpriteState) :
    (restoreOverrideCursor s).sprite_x = s.sprite_x := rfl

@[simp] theorem socPop_sprite_y (s : SpriteState) :
    (restoreOverrideCursor s).sprite_y = s.sprite_y := rfl

@[simp] theorem socPop_vx (s : SpriteState) :
    (restoreOverrideCursor s).vx = s.vx := rfl

@[simp] theorem socPop_vy (s : SpriteState) :
    (restoreOverrideCursor s).vy = s.vy := rfl

@[simp] theorem socPop_prev_vx (s : SpriteState) :
    (restoreOverrideCursor s).prev_vx = s.prev_vx := rfl

@[simp] theorem socPop_prev_vy (s : SpriteState) :
    (restoreOverrideCursor s).prev_vy = s.prev_vy := rfl

@[simp] theorem socPop_paw_traces (s : SpriteState) :
    (restoreOverrideCursor s).paw_traces = s.paw_traces := rfl

@[simp] theorem socPop_last_paw_time (s : SpriteState) :
    (restoreOverrideCursor s).last_paw_time = s.last_paw_time := rfl

@[simp] theorem socPop_paw_step_index (s : SpriteState) :
    (restoreOverrideCursor s).paw_step_index = s.paw_step_index := rfl

@[simp] theorem socPop_rampage_mode (s : SpriteState) :
    (restoreOverrideCursor s).rampage_mode = s.rampage_mode := rfl

@[simp] theorem socPop_dialog_factor (s : SpriteState) :
    (restoreOverrideCursor s).dialog_factor = s.dialog_factor := rfl

@[simp] theorem socPop_takeover_factor (s : SpriteState) :
    (restoreOverrideCursor s).takeover_factor = s.takeover_factor := rfl

@[simp] theorem socPop_rampage_exit_running (s : SpriteState) :
    (restoreOverrideCursor s).rampage_exit_running = s.rampage_exit_running := rfl

@[simp] theorem socPop_rampage_exit_start_time (s : SpriteState) :
    (restoreOverrideCursor s).rampage_exit_start_time = s.rampage_exit_start_time := rfl

@[simp] theorem socPop_rampage_exit_start_pos (s : SpriteState) :
    (restoreOverrideCursor s).rampage_exit_start_pos = s.rampage_exit_start_pos := rfl

@[simp] theorem socPop_rampage_exit_end_pos (s : SpriteState) :
    (restoreOverrideCursor s).rampage_exit_end_pos = s.rampage_exit_end_pos := rfl

@[simp] theorem socPop_effect_active (s : SpriteState) :
    (restoreOverrideCursor s).effect_active = s.effect_active := rfl

@[simp] theorem socPop_hHook (s : SpriteState) :
    (restoreOverrideCursor s).hHook = s.hHook := rfl

@[simp] theorem socPop_dialog_visible (s : SpriteState) :
    (restoreOverrideCursor s).dialog_visible = s.dialog_visible := rfl

@[simp] theorem socPop_non_rampage_running (s : SpriteState) :
    (restoreOverrideCursor s).non_rampage_running = s.non_rampage_running := rfl

@[simp] theorem socPop_non_rampage_run_start_time (s : SpriteState) :
    (restoreOverrideCursor s).non_rampage_run_start_time = s.non_rampage_run_start_time := rfl

@[simp] theorem socPop_non_rampage_can_trigger_run (s : SpriteState) :
    (restoreOverrideCursor s).non_rampage_can_trigger_run = s.non_rampage_can_trigger_run := rfl

@[simp] theorem socPop_non_rampage_start (s : SpriteState) :
    (restoreOverrideCursor s).non_rampage_start = s.non_rampage_start := rfl

@[simp] theorem socPop_non_rampage_end (s : SpriteState) :
    (restoreOverrideCursor s).non_rampage_end = s.non_rampage_end := rfl

@[simp] theorem socPush_overrideDepth (s : SpriteState) :
    (setOverrideCursor s).overrideDepth = s.overrideDepth + 1 := rfl

@[simp] theorem socPop_overrideDepth (s : SpriteState) :
    (restoreOverrideCursor s).overrideDepth = s.overrideDepth - 1 := rfl

@[simp] theorem schedT_sprite_x (u : ℚ) (s : SpriteState) :
    (schedule_next_cursor_takeover u s).sprite_x = s.sprite_x := by
  unfold schedule_next_cursor_takeover
  split <;> rfl

@[simp] theorem schedT_sprite_y (u : ℚ) (s : SpriteState) :
    (schedule_next_cursor_takeover u s).sprite_y = s.sprite_y := by
  unfold schedule_next_cursor_takeover
  split <;> rfl

@[simp] theorem schedT_vx (u : ℚ) (s : SpriteState) :
    (schedule_next_cursor_takeover u s).vx = s.vx := by
  unfold schedule_next_cursor_takeover
  split <;> rfl

@[simp] theorem schedT_vy (u : ℚ) (s : SpriteState) :
    (schedule_next_cursor_takeover u s).vy = s.vy := by
  unfold schedule_next_cursor_takeover
  split <;> rfl

@[simp] theorem schedT_prev_vx (u : ℚ) (s : SpriteState) :
    (schedule_next_cursor_takeover u s).prev_vx = s.prev_vx := by
  unfold schedule_next_cursor_takeover
  split <;> rfl

@[simp] theorem schedT_prev_vy (u : ℚ) (s : SpriteState) :
    (schedule_next_cursor_takeover u s).prev_vy = s.prev_vy := by
  unfold schedule_next_cursor_takeover
  split <;> rfl

@[simp] theorem schedT_paw_traces (u : ℚ) (s : SpriteState) :
    (schedule_next_cursor_takeover u s).paw_traces = s.paw_traces := by
  unfold schedule_next_cursor_takeover
  split <;> rfl

@[simp] theorem schedT_last_paw_time (u : ℚ) (s : SpriteState) :
    (schedule_next_cursor_takeover u s).last_paw_time = s.last_paw_time := by
  unfold schedule_next_cursor_takeover
  split <;> rfl

@[simp] theorem schedT_paw_step_index (u : ℚ) (s : SpriteState) :
    (schedule_next_cursor_takeover u s).paw_step_index = s.paw_step_index := by
  unfold schedule_next_cursor_takeover
  split <;> rfl

@[simp] theorem schedT_rampage_mode (u : ℚ) (s : SpriteState) :
    (schedule_next_cursor_takeover u s).rampage_mode = s.rampage_mode := by
  unfold schedule_next_cursor_takeover
  split <;> rfl

@[simp] theorem schedT_dialog_factor (u : ℚ) (s : SpriteState) :
    (schedule_next_cursor_takeover u s).dialog_factor = s.dialog_factor := by
  unfold schedule_next_cursor_takeover
  split <;> rfl

@[simp] theorem schedT_rampage_exit_running (u : ℚ) (s : SpriteState) :
    (schedule_next_cursor_takeover u s).rampage_exit_running = s.rampage_exit_running := by
  unfold schedule_next_cursor_takeover
  split <;> rfl

@[simp] theorem schedT_rampage_exit_start_time (u : ℚ) (s : SpriteState) :
    (schedule_next_cursor_takeover u s).rampage_exit_start_time = s.rampage_exit_start_time := by
  unfold schedule_next_cursor_takeover
  split <;> rfl

@[simp] theorem schedT_rampage_exit_start_pos (u : ℚ) (s : SpriteState) :
    (schedule_next_cursor_takeover u s).rampage_exit_start_pos = s.rampage_exit_start_pos := by
  unfold schedule_next_cursor_takeover
  split <;> rfl

@[simp] theorem schedT_rampage_exit_end_pos (u : ℚ) (s : SpriteState) :
    (schedule_next_cursor_takeover u s).rampage_exit_end_pos = s.rampage_exit_end_pos := by
  unfold schedule_next_cursor_takeover
  split <;> rfl

@[simp] theorem schedT_effect_active (u : ℚ) (s : SpriteState) :
    (schedule_next_cursor_takeover u s).effect_active = s.effect_active := by
  unfold schedule_next_cursor_takeover
  split <;> rfl

@[simp] theorem schedT_overrideDepth (u : ℚ) (s : SpriteState) :
    (schedule_next_cursor_takeover u s).overrideDepth = s.overrideDepth := by
  unfold schedule_next_cursor_takeover
  split <;> rfl

@[simp] theorem schedT_hHook (u : ℚ) (s : SpriteState) :
    (schedule_next_cursor_takeover u s).hHook = s.hHook := by
  unfold schedule_next_cursor_takeover
  split <;> rfl

@[simp] theorem schedT_dialog_visible (u : ℚ) (s : SpriteState) :
    (schedule_next_cursor_takeover u s).dialog_visible = s.dialog_visible := by
  unfold schedule_next_cursor_takeover
  split <;> rfl

@[simp] theorem schedT_non_rampage_running (u : ℚ) (s : SpriteState) :
    (schedule_next_cursor_takeover u s).non_rampage_running = s.non_rampage_running := by
  unfold schedule_next_cursor_takeover
  split <;> rfl

@[simp] theorem schedT_non_rampage_run_start_time (u : ℚ) (s : SpriteState) :
    (schedule_next_cursor_takeover u s).non_rampage_run_start_time = s.non_rampage_run_start_time := by
  unfold schedule_next_cursor_takeover
  split <;> rfl

@[simp] theorem schedT_non_rampage_can_trigger_run (u : ℚ) (s : SpriteState) :
    (schedule_next_cursor_takeover u s).non_rampage_can_trigger_run = s.non_rampage_can_trigger_run := by
  unfold schedule_next_cursor_takeover
  split <;> rfl

@[simp] theorem schedT_non_rampage_start (u : ℚ) (s : SpriteState) :
    (schedule_next_cursor_takeover u s).non_rampage_start = s.non_rampage_start := by
  unfold schedule_next_cursor_takeover
  split <;> rfl

@[simp] theorem schedT_non_rampage_end (u : ℚ) (s : SpriteState) :
    (schedule_next_cursor_takeover u s).non_rampage_end = s.non_rampage_end := by
  unfold schedule_next_cursor_takeover
  split <;> rfl

@[simp] theorem schedD_sprite_x (u : ℚ) (s : SpriteState) :
    (schedule_next_dialog u s).sprite_x = s.sprite_x := by
  unfold schedule_next_dialog
  split <;> rfl

@[simp] theorem schedD_sprite_y (u : ℚ) (s : SpriteState) :
    (schedule_next_dialog u s).sprite_y = s.sprite_y := by
  unfold schedule_next_dialog
  split <;> rfl

@[simp] theorem schedD_vx (u : ℚ) (s : SpriteState) :
    (schedule_next_dialog u s).vx = s.vx := by
  unfold schedule_next_dialog
  split <;> rfl

@[simp] theorem schedD_vy (u : ℚ) (s : SpriteState) :
    (schedule_next_dialog u s).vy = s.vy := by
  unfold schedule_next_dialog
  split <;> rfl

@[simp] theorem schedD_prev_vx (u : ℚ) (s : SpriteState) :
    (schedule_next_dialog u s).prev_vx = s.prev_vx := by
  unfold schedule_next_dialog
  split <;> rfl

@[simp] theorem schedD_prev_vy (u : ℚ) (s : SpriteState) :
    (schedule_next_dialog u s).prev_vy = s.prev_vy := by
  unfold schedule_next_dialog
  split <;> rfl

@[simp] theorem schedD_paw_traces (u : ℚ) (s : SpriteState) :
    (schedule_next_dialog u s).paw_traces = s.paw_traces := by
  unfold schedule_next_dialog
  split <;> rfl

@[simp] theorem schedD_last_paw_time (u : ℚ) (s : SpriteState) :
    (schedule_next_dialog u s).last_paw_time = s.last_paw_time := by
  unfold schedule_next_dialog
  split <;> rfl

@[simp] theorem schedD_paw_step_index (u : ℚ) (s : SpriteState) :
    (schedule_next_dialog u s).paw_step_index = s.paw_step_index := by
  unfold schedule_next_dialog
  split <;> rfl

@[simp] theorem schedD_rampage_mode (u : ℚ) (s : SpriteState) :
    (schedule_next_dialog u s).rampage_mode = s.rampage_mode := by
  unfold schedule_next_dialog
  split <;> rfl

@[simp] theorem schedD_takeover_factor (u : ℚ) (s : SpriteState) :
    (schedule_next_dialog u s).takeover_factor = s.takeover_factor := by
  unfold schedule_next_dialog
  split <;> rfl

@[simp] theorem schedD_rampage_exit_running (u : ℚ) (s : SpriteState) :
    (schedule_next_dialog u s).rampage_exit_running = s.rampage_exit_running := by
  unfold schedule_next_dialog
  split <;> rfl

@[simp] theorem schedD_rampage_exit_start_time (u : ℚ) (s : SpriteState) :
    (schedule_next_dialog u s).rampage_exit_start_time = s.rampage_exit_start_time := by
  unfold schedule_next_dialog
  split <;> rfl

@[simp] theorem schedD_rampage_exit_start_pos (u : ℚ) (s : SpriteState) :
    (schedule_next_dialog u s).rampage_exit_start_pos = s.rampage_exit_start_pos := by
  unfold schedule_next_dialog
  split <;> rfl

@[simp] theorem schedD_rampage_exit_end_pos (u : ℚ) (s : SpriteState) :
    (schedule_next_dialog u s).rampage_exit_end_pos = s.rampage_exit_end_pos := by
  unfold schedule_next_dialog
  split <;> rfl

@[simp] theorem schedD_effect_active (u : ℚ) (s : SpriteState) :
    (schedule_next_dialog u s).effect_active = s.effect_active := by
  unfold schedule_next_dialog
  split <;> rfl

@[simp] theorem schedD_overrideDepth (u : ℚ) (s : SpriteState) :
    (schedule_next_dialog u s).overrideDepth = s.overrideDepth := by
  unfold schedule_next_dialog
  split <;> rfl

@[simp] theorem schedD_hHook (u : ℚ) (s : SpriteState) :
    (schedule_next_dialog u s).hHook = s.hHook := by
  unfold schedule_next_dialog
  split <;> rfl

@[simp] theorem schedD_dialog_visible (u : ℚ) (s : SpriteState) :
    (schedule_next_dialog u s).dialog_visible = s.dialog_visible := by
  unfold schedule_next_dialog
  split <;> rfl

@[simp] theorem schedD_non_rampage_running (u : ℚ) (s : SpriteState) :
    (schedule_next_dialog u s).non_rampage_running = s.non_rampage_running := by
  unfold schedule_next_dialog
  split <;> rfl

@[simp] theorem schedD_non_rampage_run_start_time (u : ℚ) (s : SpriteState) :
    (schedule_next_dialog u s).non_rampage_run_start_time = s.non_rampage_run_start_time := by
  unfold schedule_next_dialog
  split <;> rfl

@[simp] theorem schedD_non_rampage_can_trigger_run (u : ℚ) (s : SpriteState) :
    (schedule_next_dialog u s).non_rampage_can_trigger_run = s.non_rampage_can_trigger_run := by
  unfold schedule_next_dialog
  split <;> rfl

@[simp] theorem schedD_non_rampage_start (u : ℚ) (s : SpriteState) :
    (schedule_next_dialog u s).non_rampage_start = s.non_rampage_start := by
  unfold schedule_next_dialog
  split <;> rfl

@[simp] theorem schedD_non_rampage_end (u : ℚ) (s : SpriteState) :
    (schedule_next_dialog u s).non_rampage_end = s.non_rampage_end := by
  unfold schedule_next_dialog
  split <;> rfl

@[simp] theorem hideD_sprite_x (u : ℚ) (s : SpriteState) :
    (hide_dialog u s).sprite_x = s.sprite_x := by
  unfold hide_dialog
  dsimp only
  split <;> simp

@[simp] theorem hideD_sprite_y (u : ℚ) (s : SpriteState) :
    (hide_dialog u s).sprite_y = s.sprite_y := by
  unfold hide_dialog
  dsimp only
  split <;> simp

@[simp] theorem hideD_vx (u : ℚ) (s : SpriteState) :
    (hide_dialog u s).vx = s.vx := by
  unfold hide_dialog
  dsimp only
  split <;> simp

@[simp] theorem hideD_vy (u : ℚ) (s : SpriteState) :
    (hide_dialog u s).vy = s.vy := by
  unfold hide_dialog
  dsimp only
  split <;> simp

@[simp] theorem hideD_prev_vx (u : ℚ) (s : SpriteState) :
    (hide_dialog u s).prev_vx = s.prev_vx := by
  unfold hide_dialog
  dsimp only
  split <;> simp

@[simp] theorem hideD_prev_vy (u : ℚ) (s : SpriteState) :
    (hide_dialog u s).prev_vy = s.prev_vy := by
  unfold hide_dialog
  dsimp only
  split <;> simp

@[simp] theorem hideD_paw_traces (u : ℚ) (s : SpriteState) :
    (hide_dialog u s).paw_traces = s.paw_traces := by
  unfold hide_dialog
  dsimp only
  split <;> simp

@[simp] theorem hideD_last_paw_time (u : ℚ) (s : SpriteState) :
    (hide_dialog u s).last_paw_time = s.last_paw_time := by
  unfold hide_dialog
  dsimp only
  split <;> simp

@[simp] theorem hideD_paw_step_index (u : ℚ) (s : SpriteState) :
    (hide_dialog u s).paw_step_index = s.paw_step_index := by
  unfold hide_dialog
  dsimp only
  split <;> simp

@[simp] theorem hideD_rampage_mode (u : ℚ) (s : SpriteState) :
    (hide_dialog u s).rampage_mode = s.rampage_mode := by
  unfold hide_dialog
  dsimp only
  split <;> simp

@[simp] theorem hideD_takeover_factor (u : ℚ) (s : SpriteState) :
    (hide_dialog u s).takeover_factor = s.takeover_factor := by
  unfold hide_dialog
  dsimp only
  split <;> simp

@[simp] theorem hideD_rampage_exit_running (u : ℚ) (s : SpriteState) :
    (hide_dialog u s).rampage_exit_running = s.rampage_exit_running := by
  unfold hide_dialog
  dsimp only
  split <;> simp

@[simp] theorem hideD_rampage_exit_start_time (u : ℚ) (s : SpriteState) :
    (hide_dialog u s).rampage_exit_start_time = s.rampage_exit_start_time := by
  unfold hide_dialog
  dsimp only
  split <;> simp

@[simp] theorem hideD_rampage_exit_start_pos (u : ℚ) (s : SpriteState) :
    (hide_dialog u s).rampage_exit_start_pos = s.rampage_exit_start_pos := by
  unfold hide_dialog
  dsimp only
  split <;> simp

@[simp] theorem hideD_rampage_exit_end_pos (u : ℚ) (s : SpriteState) :
    (hide_dialog u s).rampage_exit_end_pos = s.rampage_exit_end_pos := by
  unfold hide_dialog
  dsimp only
  split <;> simp

@[simp] theorem hideD_effect_active (u : ℚ) (s : SpriteState) :
    (hide_dialog u s).effect_active = s.effect_active := by
  unfold hide_dialog
  dsimp only
  split <;> simp

@[simp] theorem hideD_overrideDepth (u : ℚ) (s : SpriteState) :
    (hide_dialog u s).overrideDepth = s.overrideDepth := by
  unfold hide_dialog
  dsimp only
  split <;> simp

@[simp] theorem hideD_hHook (u : ℚ) (s : SpriteState) :
    (hide_dialog u s).hHook = s.hHook := by
  unfold hide_dialog
  dsimp only
  split <;> simp

@[simp] theorem hideD_non_rampage_running (u : ℚ) (s : SpriteState) :
    (hide_dialog u s).non_rampage_running = s.non_rampage_running := by
  unfold hide_dialog
  dsimp only
  split <;> simp

@[simp] theorem hideD_non_rampage_run_start_time (u : ℚ) (s : SpriteState) :
    (hide_dialog u s).non_rampage_run_start_time = s.non_rampage_run_start_time := by
  unfold hide_dialog
  dsimp only
  split <;> simp

@[simp] theorem hideD_non_rampage_can_trigger_run (u : ℚ) (s : SpriteState) :
    (hide_dialog u s).non_rampage_can_trigger_run = s.non_rampage_can_trigger_run := by
  unfold hide_dialog
  dsimp only
  split <;> simp

@[simp] theorem hideD_non_rampage_start (u : ℚ) (s : SpriteState) :
    (hide_dialog u s).non_rampage_start = s.non_rampage_start := by
  unfold hide_dialog
  dsimp only
  split <;> simp

@[simp] theorem hideD_non_rampage_end (u : ℚ) (s : SpriteState) :
    (hide_dialog u s).non_rampage_end = s.non_rampage_end := by
  unfold hide_dialog
  dsimp only
  split <;> simp

@[simp] theorem hideD_dialog_visible (u : ℚ) (s : SpriteState) :
    (hide_dialog u s).dialog_visible = false := by
  unfold hide_dialog
  dsimp only
  split <;> simp

@[simp] theorem finRO_sprite_x (s : SpriteState) :
    (finalize_rampage_off s).sprite_x = s.sprite_x := rfl

@[simp] theorem finRO_sprite_y (s : SpriteState) :
    (finalize_rampage_off s).sprite_y = s.sprite_y := rfl

@[simp] theorem finRO_vx (s : SpriteState) :
    (finalize_rampage_off s).vx = s.vx := rfl

@[simp] theorem finRO_vy (s : SpriteState) :
    (finalize_rampage_off s).vy = s.vy := rfl

@[simp] theorem finRO_prev_vx (s : SpriteState) :
    (finalize_rampage_off s).prev_vx = s.prev_vx := rfl

@[simp] theorem finRO_prev_vy (s : SpriteState) :
    (finalize_rampage_off s).prev_vy = s.prev_vy := rfl

@[simp] theorem finRO_paw_traces (s : SpriteState) :
    (finalize_rampage_off s).paw_traces = s.paw_traces := rfl

@[simp] theorem finRO_last_paw_time (s : SpriteState) :
    (finalize_rampage_off s).last_paw_time = s.last_paw_time := rfl

@[simp] theorem finRO_paw_step_index (s : SpriteState) :
    (finalize_rampage_off s).paw_step_index = s.paw_step_index := rfl

@[simp] theorem finRO_rampage_exit_start_time (s : SpriteState) :
    (finalize_rampage_off s).rampage_exit_start_time = s.rampage_exit_start_time := rfl

@[simp] theorem finRO_rampage_exit_start_pos (s : SpriteState) :
    (finalize_rampage_off s).rampage_exit_start_pos = s.rampage_exit_start_pos := rfl

@[simp] theorem finRO_rampage_exit_end_pos (s : SpriteState) :
    (finalize_rampage_off s).rampage_exit_end_pos = s.rampage_exit_end_pos := rfl

@[simp] theorem finRO_effect_active (s : SpriteState) :
    (finalize_rampage_off s).effect_active = s.effect_active := rfl

@[simp] theorem finRO_overrideDepth (s : SpriteState) :
    (finalize_rampage_off s).overrideDepth = s.overrideDepth := rfl

@[simp] theorem finRO_hHook (s : SpriteState) :
    (finalize_rampage_off s).hHook = s.hHook := rfl

@[simp] theorem finRO_dialog_visible (s : SpriteState) :
    (finalize_rampage_off s).dialog_visible = s.dialog_visible := rfl

@[simp] theorem finRO_non_rampage_running (s : SpriteState) :
    (finalize_rampage_off s).non_rampage_running = s.non_rampage_running := rfl

@[simp] theorem finRO_non_rampage_run_start_time (s : SpriteState) :
    (finalize_rampage_off s).non_rampage_run_start_time = s.non_rampage_run_start_time := rfl

@[simp] theorem finRO_non_rampage_can_trigger_run (s : SpriteState) :
    (finalize_rampage_off s).non_rampage_can_trigger_run = s.non_rampage_can_trigger_run := rfl

@[simp] theorem finRO_non_rampage_start (s : SpriteState) :
    (finalize_rampage_off s).non_rampage_start = s.non_rampage_start := rfl

@[simp] theorem finRO_non_rampage_end (s : SpriteState) :
    (finalize_rampage_off s).non_rampage_end = s.non_rampage_end := rfl

@[simp] theorem finRO_rampage_mode (s : SpriteState) :
    (finalize_rampage_off s).rampage_mode = false := rfl

@[simp] theorem finRO_dialog_factor (s : SpriteState) :
    (finalize_rampage_off s).dialog_factor = 1 := rfl

@[simp] theorem finRO_takeover_factor (s : SpriteState) :
    (finalize_rampage_off s).takeover_factor = 1 := rfl

@[simp] theorem finRO_rampage_exit_running (s : SpriteState) :
    (finalize_rampage_off s).rampage_exit_running = false := rfl

@[simp] theorem msOff_vx (s : SpriteState) :
    (move_sprite_offscreen s).vx = s.vx := by
  unfold move_sprite_offscreen
  split <;> rfl

@[simp] theorem msOff_vy (s : SpriteState) :
    (move_sprite_offscreen s).vy = s.vy := by
  unfold move_sprite_offscreen
  split <;> rfl

@[simp] theorem msOff_prev_vx (s : SpriteState) :
    (move_sprite_offscreen s).prev_vx = s.prev_vx := by
  unfold move_sprite_offscreen
  split <;> rfl

@[simp] theorem msOff_prev_vy (s : SpriteState) :
    (move_sprite_offscreen s).prev_vy = s.prev_vy := by
  unfold move_sprite_offscreen
  split <;> rfl

@[simp] theorem msOff_paw_traces (s : SpriteState) :
    (move_sprite_offscreen s).paw_traces = s.paw_traces := by
  unfold move_sprite_offscreen
  split <;> rfl

@[simp] theorem msOff_last_paw_time (s : SpriteState) :
    (move_sprite_offscreen s).last_paw_time = s.last_paw_time := by
  unfold move_sprite_offscreen
  split <;> rfl

@[simp] theorem msOff_paw_step_index (s : SpriteState) :
    (move_sprite_offscreen s).paw_step_index = s.paw_step_index := by
  unfold move_sprite_offscreen
  split <;> rfl

@[simp] theorem msOff_rampage_mode (s : SpriteState) :
    (move_sprite_offscreen s).rampage_mode = s.rampage_mode := by
  unfold move_sprite_offscreen
  split <;> rfl

@[simp] theorem msOff_dialog_factor (s : SpriteState) :
    (move_sprite_offscreen s).dialog_factor = s.dialog_factor := by
  unfold move_sprite_offscreen
  split <;> rfl

@[simp] theorem msOff_takeover_factor (s : SpriteState) :
    (move_sprite_offscreen s).takeover_factor = s.takeover_factor := by
  unfold move_sprite_offscreen
  split <;> rfl

@[simp] theorem msOff_rampage_exit_running (s : SpriteState) :
    (move_sprite_offscreen s).rampage_exit_running = s.rampage_exit_running := by
  unfold move_sprite_offscreen
  split <;> rfl

@[simp] theorem msOff_rampage_exit_start_time (s : SpriteState) :
    (move_sprite_offscreen s).rampage_exit_start_time = s.rampage_exit_start_time := by
  unfold move_sprite_offscreen
  split <;> rfl

@[simp] theorem msOff_rampage_exit_start_pos (s : SpriteState) :
    (move_sprite_offscreen s).rampage_exit_start_pos = s.rampage_exit_start_pos := by
  unfold move_sprite_offscreen
  split <;> rfl

@[simp] theorem msOff_rampage_exit_end_pos (s : SpriteState) :
    (move_sprite_offscreen s).rampage_exit_end_pos = s.rampage_exit_end_pos := by
  unfold move_sprite_offscreen
  split <;> rfl

@[simp] theorem msOff_effect_active (s : SpriteState) :
    (move_sprite_offscreen s).effect_active = s.effect_active := by
  unfold move_sprite_offscreen
  split <;> rfl

@[simp] theorem msOff_overrideDepth (s : SpriteState) :
    (move_sprite_offscreen s).overrideDepth = s.overrideDepth := by
  unfold move_sprite_offscreen
  split <;> rfl

@[simp] theorem msOff_hHook (s : SpriteState) :
    (move_sprite_offscreen s).hHook = s.hHook := by
  unfold move_sprite_offscreen
  split <;> rfl

@[simp] theorem msOff_dialog_visible (s : SpriteState) :
    (move_sprite_offscreen s).dialog_visible = s.dialog_visible := by
  unfold move_sprite_offscreen
  split <;> rfl

@[simp] theorem msOff_non_rampage_running (s : SpriteState) :
    (move_sprite_offscreen s).non_rampage_running = s.non_rampage_running := by
  unfold move_sprite_offscreen
  split <;> rfl

@[simp] theorem msOff_non_rampage_run_start_time (s : SpriteState) :
    (move_sprite_offscreen s).non_rampage_run_start_time = s.non_rampage_run_start_time := by
  unfold move_sprite_offscreen
  split <;> rfl

@[simp] theorem msOff_non_rampage_can_trigger_run (s : SpriteState) :
    (move_sprite_offscreen s).non_rampage_can_trigger_run = s.non_rampage_can_trigger_run := by
  unfold move_sprite_offscreen
  split <;> rfl

@[simp] theorem msOff_non_rampage_start (s : SpriteState) :
    (move_sprite_offscreen s).non_rampage_start = s.non_rampage_start := by
  unfold move_sprite_offscreen
  split <;> rfl

@[simp] theorem msOff_non_rampage_end (s : SpriteState) :
    (move_sprite_offscreen s).non_rampage_end = s.non_rampage_end := by
  unfold move_sprite_offscreen
  split <;> rfl

/-- Full description of a stop_cursor_takeover call on a state holding
the pointer resource. -/
theorem stop_fields (u : ℚ) (s : SpriteState)
    (ha : s.effect_active = true) (hd : s.overrideDepth = 1)
    (hh : s.hHook = some 1) :
    (stop_cursor_takeover u s).effect_active = false ∧
    (stop_cursor_takeover u s).overrideDepth = 0 ∧
    (stop_cursor_takeover u s).hHook = none ∧
    (stop_cursor_takeover u s).sprite_x = s.sprite_x ∧
    (stop_cursor_takeover u s).sprite_y = s.sprite_y ∧
    (stop_cursor_takeover u s).rampage_mode = s.rampage_mode ∧
    (stop_cursor_takeover u s).dialog_visible = s.dialog_visible ∧
    (stop_cursor_takeover u s).rampage_exit_running = s.rampage_exit_running := by
  unfold stop_cursor_takeover stop_cursor_takeover_inj stopTryBody
  simp only [ha, Bool.true_eq_false, not_false_eq_true, if_false, if_true]
  norm_num
  split <;> simp [hd, hh]

/-- stop_cursor_takeover is a no-op when no effect is active. -/
theorem stop_noop (u : ℚ) (inj : Option ℕ) (s : SpriteState)
    (ha : s.effect_active = false) :
    stop_cursor_takeover_inj u inj s = s := by
  unfold stop_cursor_takeover_inj
  simp [ha]

/-- The except handler of stop_cursor_takeover (mouse_hook.stop then
restoreOverrideCursor) forces the safe state from any state with at
most one override outstanding. -/
theorem restore_stop_safe (s : SpriteState) (hd : s.overrideDepth ≤ 1) :
    (restoreOverrideCursor (MouseHook.stop s)).overrideDepth = 0 ∧
    (restoreOverrideCursor (MouseHook.stop s)).hHook = none := by
  unfold restoreOverrideCursor MouseHook.stop
  by_cases h : s.hHook.isSome <;>
    simp_all [Option.not_isSome_iff_eq_none]

/-- However far the try block of stop_cursor_takeover got, the override
depth never exceeds one. -/
theorem stopTryBody_depth (u : ℚ) (k : ℕ) (s : SpriteState)
    (hd : s.overrideDepth = 1) :
    (stopTryBody u k s).overrideDepth ≤ 1 := by
  unfold stopTryBody
  by_cases hk0 : k = 0
  · simp [hk0, hd]
  by_cases hk1 : k = 1
  · simp [hk0, hk1, hd]
  by_cases hk2 : k = 2
  · simp [hk0, hk1, hk2, hd]
  by_cases hk3 : k = 3
  · simp [hk0, hk1, hk2, hk3, hd]
  by_cases hk4 : k = 4
  · simp [hk0, hk1, hk2, hk3, hk4, hd]
  · simp only [hk0, hk1, hk2, hk3, hk4, if_false]
    split <;> simp [hd]

/-- Release leaves the pointer visible and the hook uninstalled, with or
without an injected exception, from any state satisfying CursorInv. -/
theorem stop_inj_safe (u : ℚ) (inj : Option ℕ) (s : SpriteState)
    (h : CursorInv s) :
    (stop_cursor_takeover_inj u inj s).overrideDepth = 0 ∧
    (stop_cursor_takeover_inj u inj s).hHook = none := by
  obtain ⟨h1, h0⟩ := h
  by_cases ha : s.effect_active
  · obtain ⟨hd, hh⟩ := h1 ha
    cases inj with
    | none =>
      have e : stop_cursor_takeover_inj u none s = stop_cursor_takeover u s := rfl
      rw [e]
      obtain ⟨_, g2, g3, _⟩ := stop_fields u s ha hd hh
      exact ⟨g2, g3⟩
    | some k =>
      unfold stop_cursor_takeover_inj
      simp only [ha, Bool.true_eq_false, not_false_eq_true, if_false,
        Bool.not_true, if_true]
      exact restore_stop_safe _ (stopTryBody_depth u k s hd)
  · rw [stop_noop u inj s (by simpa using ha)]
    exact h0 (by simpa using ha)

/-- stop_cursor_takeover preserves the pointer-resource invariant. -/
theorem stop_inv (u : ℚ) (s : SpriteState) (h : CursorInv s) :
    CursorInv (stop_cursor_takeover u s) := by
  obtain ⟨h1, h0⟩ := h
  by_cases ha : s.effect_active
  · obtain ⟨hd, hh⟩ := h1 ha
    obtain ⟨g1, g2, g3, _⟩ := stop_fields u s ha hd hh
    exact ⟨fun hc => by rw [g1] at hc; exact absurd hc (by decide),
           fun _ => ⟨g2, g3⟩⟩
  · have e : stop_cursor_takeover u s = s := stop_noop u none s (by simpa using ha)
    rw [e]
    exact ⟨h1, h0⟩

/-- start_cursor_takeover preserves the pointer-resource invariant. -/
theorem start_inv (now dur : ℤ) (c : ℤ × ℤ) (s : SpriteState)
    (h : CursorInv s) :
    CursorInv (start_cursor_takeover now dur c s) := by
  obtain ⟨h1, h0⟩ := h
  unfold start_cursor_takeover
  by_cases hrm : s.rampage_mode
  · by_cases ha : s.effect_active
    · simp only [hrm, ha, Bool.not_true, if_true, if_false]
      exact ⟨h1, h0⟩
    · obtain ⟨hd, hh⟩ := h0 (by simpa using ha)
      simp [hrm, ha, setOverrideCursor, MouseHook.start, CursorInv, hd, hh]
  · simp only [hrm, Bool.not_false, if_true]
    exact ⟨h1, h0⟩

/-- move_cursor_around preserves the pointer-resource invariant. -/
theorem drive_inv (a : DriveArg) (s : SpriteState) (h : CursorInv s) :
    CursorInv (move_cursor_around a.now a.target a.dur a.u s) := by
  unfold move_cursor_around
  split
  · exact stop_inv a.u s h
  · obtain ⟨h1, h0⟩ := h
    cases hm : s.cursor_move_start_time <;>
      simp only [hm] <;> split_ifs <;>
      exact ⟨fun he => h1 (by simpa using he), fun he => h0 (by simpa using he)⟩

/-- Any sequence of move_cursor_around ticks preserves the invariant. -/
theorem drives_inv (l : List DriveArg) (s : SpriteState) (h : CursorInv s) :
    CursorInv (l.foldl (fun s a => move_cursor_around a.now a.target a.dur a.u s) s) := by
  induction l generalizing s with
  | nil => exact h
  | cons a l ih => exact ih _ (drive_inv a s h)

/-- C1: for every call sequence acquire (start_cursor_takeover), any
number of move_cursor_around calls, then release (stop_cursor_takeover),
after release returns the pointer-visible flag is true (override depth
zero) and MouseHook.hHook is None, including sequences in which an
exception is injected at any point of release: the except handler still
uninstalls the hook and restores the pointer before returning. -/
theorem c1_release_restores_pointer (s : SpriteState) (now dur : ℤ)
    (center : ℤ × ℤ) (drives : List DriveArg) (inj : Option ℕ) (u : ℚ)
    (h : s.effect_active = false ∧ s.overrideDepth = 0 ∧ s.hHook = none) :
    (takeoverSession s now dur center drives inj u).overrideDepth = 0 ∧
    (takeoverSession s now dur center drives inj u).hHook = none := by
  have h0 : CursorInv s :=
    ⟨fun hc => by rw [h.1] at hc; exact absurd hc (by decide),
     fun _ => ⟨h.2.1, h.2.2⟩⟩
  exact stop_inj_safe u inj _ (drives_inv drives _ (start_inv now dur center s h0))

/-- Witness for C1 at a concrete rampage state, two drive ticks and an
exception injected after the restoreOverrideCursor statement. -/
theorem c1_release_restores_pointer_witness :
    (takeoverSession rampageState 0 10 (0, 0)
        [⟨16, (5, 5), 1, 0⟩, ⟨32, (9, 9), 1, 0⟩] (some 2) 0).overrideDepth = 0 ∧
    (takeoverSession rampageState 0 10 (0, 0)
        [⟨16, (5, 5), 1, 0⟩, ⟨32, (9, 9), 1, 0⟩] (some 2) 0).hHook = none :=
  c1_release_restores_pointer rampageState 0 10 (0, 0)
    [⟨16, (5, 5), 1, 0⟩, ⟨32, (9, 9), 1, 0⟩] (some 2) 0 (by decide)

/-! C3: escalation factors. -/

/-- One takeover reschedule keeps the factor within [min_factor, old]. -/
theorem takeoverWait_factor (f u : ℚ) (h : min_factor ≤ f) :
    min_factor ≤ (takeoverWait f u).1 ∧ (takeoverWait f u).1 ≤ f := by
  have hf : (1 : ℚ)/10 ≤ f := h
  unfold takeoverWait min_factor
  refine ⟨le_max_left _ _, max_le hf (by nlinarith)⟩

/-- One dialog reschedule keeps the factor within [min_factor, old]. -/
theorem dialogWait_factor (f u : ℚ) (h : min_factor ≤ f) :
    min_factor ≤ (dialogWait f u).1 ∧ (dialogWait f u).1 ≤ f := by
  have hf : (1 : ℚ)/10 ≤ f := h
  unfold dialogWait min_factor
  refine ⟨le_max_left _ _, max_le hf (by nlinarith)⟩

/-- The takeover factor written by a reschedule in rampage mode. -/
theorem schedT_factor_val (u : ℚ) (s : SpriteState) (h : s.rampage_mode = true) :
    (schedule_next_cursor_takeover u s).takeover_factor
      = (takeoverWait s.takeover_factor u).1 := by
  unfold schedule_next_cursor_takeover
  simp [h]

/-- The takeover factor is untouched outside rampage mode. -/
theorem schedT_factor_off (u : ℚ) (s : SpriteState) (h : s.rampage_mode = false) :
    (schedule_next_cursor_takeover u s).takeover_factor = s.takeover_factor := by
  unfold schedule_next_cursor_takeover
  simp [h]

/-- The dialog factor written by a reschedule in rampage mode. -/
theorem schedD_factor_val (u : ℚ) (s : SpriteState) (h : s.rampage_mode = true) :
    (schedule_next_dialog u s).dialog_factor = (dialogWait s.dialog_factor u).1 := by
  unfold schedule_next_dialog
  simp [h]

/-- The dialog factor is untouched outside rampage mode. -/
theorem schedD_factor_off (u : ℚ) (s : SpriteState) (h : s.rampage_mode = false) :
    (schedule_next_dialog u s).dialog_factor = s.dialog_factor := by
  unfold schedule_next_dialog
  simp [h]

/-- One reschedule call of either kind keeps both factors bounded below
by min_factor and non-increasing. -/
theorem applySched_factors (o : SchedOp) (s : SpriteState)
    (h1 : min_factor ≤ s.dialog_factor) (h2 : min_factor ≤ s.takeover_factor) :
    (min_factor ≤ (applySched o s).dialog_factor ∧
     (applySched o s).dialog_factor ≤ s.dialog_factor) ∧
    (min_factor ≤ (applySched o s).takeover_factor ∧
     (applySched o s).takeover_factor ≤ s.takeover_factor) := by
  cases o with
  | dial u =>
    show (min_factor ≤ (schedule_next_dialog u s).dialog_factor ∧
          (schedule_next_dialog u s).dialog_factor ≤ s.dialog_factor) ∧
         (min_factor ≤ (schedule_next_dialog u s).takeover_factor ∧
          (schedule_next_dialog u s).takeover_factor ≤ s.takeover_factor)
    rw [schedD_takeover_factor]
    by_cases hrm : s.rampage_mode
    · rw [schedD_factor_val u s hrm]
      exact ⟨dialogWait_factor s.dialog_factor u h1, h2, le_rfl⟩
    · rw [schedD_factor_off u s (by simpa using hrm)]
      exact ⟨⟨h1, le_rfl⟩, h2, le_rfl⟩
  | take u =>
    show (min_factor ≤ (schedule_next_cursor_takeover u s).dialog_factor ∧
          (schedule_next_cursor_takeover u s).dialog_factor ≤ s.dialog_factor) ∧
         (min_factor ≤ (schedule_next_cursor_takeover u s).takeover_factor ∧
          (schedule_next_cursor_takeover u s).takeover_factor ≤ s.takeover_factor)
    rw [schedT_dialog_factor]
    by_cases hrm : s.rampage_mode
    · rw [schedT_factor_val u s hrm]
      exact ⟨⟨h1, le_rfl⟩, takeoverWait_factor s.takeover_factor u h2⟩
    · rw [schedT_factor_off u s (by simpa using hrm)]
      exact ⟨⟨h1, le_rfl⟩, h2, le_rfl⟩

/-- Any sequence of reschedules keeps both factors bounded below by
min_factor and non-increasing. -/
theorem runScheds_factors (ops : List SchedOp) (s : SpriteState)
    (h1 : min_factor ≤ s.dialog_factor) (h2 : min_factor ≤ s.takeover_factor) :
    (min_factor ≤ (runScheds ops s).dialog_factor ∧
     (runScheds ops s).dialog_factor ≤ s.dialog_factor) ∧
    (min_factor ≤ (runScheds ops s).takeover_factor ∧
     (runScheds ops s).takeover_factor ≤ s.takeover_factor) := by
  induction ops generalizing s with
  | nil => exact ⟨⟨h1, le_rfl⟩, h2, le_rfl⟩
  | cons o ops ih =>
    have hstep := applySched_factors o s h1 h2
    have hrest := ih (applySched o s) hstep.1.1 hstep.2.1
    show (min_factor ≤ (runScheds ops (applySched o s)).dialog_factor ∧ _) ∧ _
    exact ⟨⟨hrest.1.1, le_trans hrest.1.2 hstep.1.2⟩,
           hrest.2.1, le_trans hrest.2.2 hstep.2.2⟩

/-- C3: over any sequence of reschedule calls in any order, both
escalation factors stay at or above min_factor (0.1) and are
monotonically non-increasing, and finalize_rampage_off resets both to
exactly 1.0. -/
theorem c3_factor_invariant (ops : List SchedOp) (s : SpriteState)
    (h1 : min_factor ≤ s.dialog_factor) (h2 : min_factor ≤ s.takeover_factor) :
    (min_factor ≤ (runScheds ops s).dialog_factor ∧
     min_factor ≤ (runScheds ops s).takeover_factor) ∧
    ((runScheds ops s).dialog_factor ≤ s.dialog_factor ∧
     (runScheds ops s).takeover_factor ≤ s.takeover_factor) ∧
    ((finalize_rampage_off (runScheds ops s)).dialog_factor = 1 ∧
     (finalize_rampage_off (runScheds ops s)).takeover_factor = 1) := by
  have h := runScheds_factors ops s h1 h2
  exact ⟨⟨h.1.1, h.2.1⟩, ⟨h.1.2, h.2.2⟩, rfl, rfl⟩

/-- Witness for C3: two dialog and one takeover reschedule from the
rampage state. -/
theorem c3_factor_invariant_witness :
    (min_factor ≤ (runScheds [SchedOp.dial 0, SchedOp.take 1, SchedOp.dial 1]
        rampageState).dialog_factor ∧
     min_factor ≤ (runScheds [SchedOp.dial 0, SchedOp.take 1, SchedOp.dial 1]
        rampageState).takeover_factor) ∧
    ((runScheds [SchedOp.dial 0, SchedOp.take 1, SchedOp.dial 1]
        rampageState).dialog_factor ≤ rampageState.dialog_factor ∧
     (runScheds [SchedOp.dial 0, SchedOp.take 1, SchedOp.dial 1]
        rampageState).takeover_factor ≤ rampageState.takeover_factor) ∧
    ((finalize_rampage_off (runScheds [SchedOp.dial 0, SchedOp.take 1, SchedOp.dial 1]
        rampageState)).dialog_factor = 1 ∧
     (finalize_rampage_off (runScheds [SchedOp.dial 0, SchedOp.take 1, SchedOp.dial 1]
        rampageState)).takeover_factor = 1) :=
  c3_factor_invariant [SchedOp.dial 0, SchedOp.take 1, SchedOp.dial 1]
    rampageState (by norm_num [min_factor, rampageState, initState])
    (by norm_num [min_factor, rampageState, initState])

/-! C4: scheduler wait ranges. -/

/-- The escalated takeover draw lies in [30 f, 180 f] for the updated
factor f, and the one-second floor never binds there. -/
theorem takeoverWait_bounds (f u : ℚ) (hu0 : 0 ≤ u) (hu1 : u ≤ 1)
    (hf : min_factor ≤ f) :
    30 * (takeoverWait f u).1 ≤ (takeoverWait f u).2 ∧
    (takeoverWait f u).2 ≤ 180 * (takeoverWait f u).1 ∧
    1 ≤ (takeoverWait f u).2 := by
  have hf1 : (1 : ℚ)/10 ≤ f := hf
  unfold takeoverWait original_takeover_min original_takeover_max min_factor
  dsimp only
  set M : ℚ := max (1/10) (f * (9/10)) with hM
  have hf2 : (1 : ℚ)/10 ≤ M := le_max_left _ _
  have hx : 30 * M ≤ 30 * M + u * (180 * M - 30 * M) := by nlinarith
  have hy : 30 * M + u * (180 * M - 30 * M) ≤ 180 * M := by nlinarith
  have h1 : (1 : ℚ) ≤ 30 * M + u * (180 * M - 30 * M) := by nlinarith
  rw [max_eq_left h1]
  exact ⟨hx, hy, h1⟩

/-- The escalated dialog draw lies between the one-second-floored range
ends [max(5 f, 1), max(7 f, 1)] for the updated factor f. -/
theorem dialogWait_bounds (f u : ℚ) (hu0 : 0 ≤ u) (hu1 : u ≤ 1)
    (hf : min_factor ≤ f) :
    max (5 * (dialogWait f u).1) 1 ≤ (dialogWait f u).2 ∧
    (dialogWait f u).2 ≤ max (7 * (dialogWait f u).1) 1 := by
  have hf1 : (1 : ℚ)/10 ≤ f := hf
  unfold dialogWait original_dialog_min original_dialog_max min_factor
  dsimp only
  set M : ℚ := max (1/10) (f * (3/4)) with hM
  have hf2 : (1 : ℚ)/10 ≤ M := le_max_left _ _
  have hx : 5 * M ≤ 5 * M + u * (7 * M - 5 * M) := by nlinarith
  have hy : 5 * M + u * (7 * M - 5 * M) ≤ 7 * M := by nlinarith
  exact ⟨max_le_max hx le_rfl, max_le_max hy le_rfl⟩

/-- C4 (amended): each reschedule first updates the factor
(max(0.1, factor * 0.9) for takeover, decay 0.75 for dialog), then draws
uniformly from [30 f, 180 f] (dialog [5 f, 7 f]) floored at one second;
with factor initially 1.0 the first scheduled wait falls in [27, 162]
seconds (one decay already applies); after three escalated reschedules
the factor is exactly 0.729 and the third draw lies in [21.87, 131.22]
seconds. -/
theorem c4_schedule_amended :
    (∀ u : ℚ, ∀ s : SpriteState, s.rampage_mode = true →
      (schedule_next_cursor_takeover u s).takeover_factor
          = max min_factor (s.takeover_factor * (9 / 10)) ∧
      (schedule_next_cursor_takeover u s).random_start_timer_interval
          = pyInt ((takeoverWait s.takeover_factor u).2 * 1000) ∧
      (schedule_next_dialog u s).dialog_factor
          = max min_factor (s.dialog_factor * (3 / 4)) ∧
      (schedule_next_dialog u s).dialog_timer_interval
          = pyInt ((dialogWait s.dialog_factor u).2 * 1000)) ∧
    (∀ f u : ℚ, 0 ≤ u → u ≤ 1 → min_factor ≤ f →
      30 * (takeoverWait f u).1 ≤ (takeoverWait f u).2 ∧
      (takeoverWait f u).2 ≤ 180 * (takeoverWait f u).1 ∧
      1 ≤ (takeoverWait f u).2) ∧
    (∀ f u : ℚ, 0 ≤ u → u ≤ 1 → min_factor ≤ f →
      max (5 * (dialogWait f u).1) 1 ≤ (dialogWait f u).2 ∧
      (dialogWait f u).2 ≤ max (7 * (dialogWait f u).1) 1) ∧
    (∀ u : ℚ, 0 ≤ u → u ≤ 1 →
      27 ≤ (takeoverWait 1 u).2 ∧ (takeoverWait 1 u).2 ≤ 162) ∧
    (∀ u1 u2 u3 : ℚ, 0 ≤ u3 → u3 ≤ 1 →
      (takeoverWait (takeoverWait (takeoverWait 1 u1).1 u2).1 u3).1 = 729 / 1000 ∧
      2187 / 100 ≤ (takeoverWait (takeoverWait (takeoverWait 1 u1).1 u2).1 u3).2 ∧
      (takeoverWait (takeoverWait (takeoverWait 1 u1).1 u2).1 u3).2 ≤ 13122 / 100) := by
  refine ⟨?_, takeoverWait_bounds, dialogWait_bounds, ?_, ?_⟩
  · intro u s h
    refine ⟨schedT_factor_val u s h, ?_, schedD_factor_val u s h, ?_⟩
    · unfold schedule_next_cursor_takeover
      simp [h]
    · unfold schedule_next_dialog
      simp [h]
  · intro u hu0 hu1
    have h1 : (takeoverWait 1 u).1 = 9/10 := by
      norm_num [takeoverWait, min_factor, max_def]
    have hb := takeoverWait_bounds 1 u hu0 hu1 (by norm_num [min_factor])
    rw [h1] at hb
    constructor <;> linarith [hb.1, hb.2.1]
  · intro u1 u2 u3 hu0 hu1
    have h1 : (takeoverWait 1 u1).1 = 9/10 := by
      norm_num [takeoverWait, min_factor, max_def]
    have h2 : (takeoverWait (9/10 : ℚ) u2).1 = 81/100 := by
      norm_num [takeoverWait, min_factor, max_def]
    have h3 : (takeoverWait (81/100 : ℚ) u3).1 = 729/1000 := by
      norm_num [takeoverWait, min_factor, max_def]
    rw [h1, h2]
    have hb := takeoverWait_bounds (81/100) u3 hu0 hu1 (by norm_num [min_factor])
    rw [h3] at hb
    exact ⟨h3, by linarith [hb.1], by linarith [hb.2.1]⟩

/-- Witness for C4 (amended) at factor 1 and draws 0 and 1. -/
theorem c4_schedule_amended_witness :
    ((schedule_next_cursor_takeover 0 rampageState).takeover_factor
        = max min_factor (rampageState.takeover_factor * (9 / 10))) ∧
    (27 ≤ (takeoverWait 1 0).2 ∧ (takeoverWait 1 0).2 ≤ 162) ∧
    ((takeoverWait (takeoverWait (takeoverWait 1 0).1 1).1 (1/2)).1 = 729 / 1000) :=
  ⟨(c4_schedule_amended.1 0 rampageState rfl).1,
   c4_schedule_amended.2.2.2.1 0 (by norm_num) (by norm_num),
   (c4_schedule_amended.2.2.2.2 0 1 (1/2) (by norm_num) (by norm_num)).1⟩

/-- C4 counterexample: with factor initially 1.0 the first scheduled
takeover wait can be 27 seconds (uniform draw at the low end), which is
outside [30, 180]: the factor is decayed to 0.9 before the very first
draw. -/
theorem c4_counterexample :
    (takeoverWait 1 0).2 = 27 ∧ ¬ ((30 : ℚ) ≤ (takeoverWait 1 0).2) ∧
    initState.takeover_factor = 1 ∧
    (rampage_on 0 0 initState).random_start_timer_interval = 27000 := by
  refine ⟨?_, ?_, rfl, ?_⟩
  · norm_num [takeoverWait, min_factor, max_def,
      original_takeover_min, original_takeover_max]
  · norm_num [takeoverWait, min_factor, max_def,
      original_takeover_min, original_takeover_max]
  · norm_num [rampage_on, initState, schedule_next_cursor_takeover,
      schedule_next_dialog, takeoverWait, dialogWait, pyInt, min_factor, max_def,
      original_takeover_min, original_takeover_max,
      original_dialog_min, original_dialog_max]

/-! C10: re-entrancy guards. -/

/-- C10 (amended): a rampage activation while already in Rampage and a
takeover stop while no takeover is active are no-ops; but a cancel
(rampage_off) while the machine is still in rampage_mode, including
during the RampageExit retreat, restarts the retreat: it re-stamps the
start time, start position and off-screen target. -/
theorem c10_reentrancy_amended :
    (∀ u1 u2 : ℚ, ∀ s : SpriteState, s.rampage_mode = true →
      rampage_on u1 u2 s = s) ∧
    (∀ u : ℚ, ∀ s : SpriteState, s.effect_active = false →
      stop_cursor_takeover u s = s) ∧
    (∀ now : ℤ, ∀ pick : ℤ × ℤ, ∀ u1 u2 : ℚ, ∀ s : SpriteState,
      s.rampage_mode = true →
      (rampage_off now pick u1 u2 s).rampage_exit_running = true ∧
      (rampage_off now pick u1 u2 s).rampage_exit_start_time = now ∧
      (rampage_off now pick u1 u2 s).rampage_exit_end_pos = pick) := by
  refine ⟨?_, ?_, ?_⟩
  · intro u1 u2 s h
    unfold rampage_on
    simp [h]
  · intro u s h
    exact stop_noop u none s h
  · intro now pick u1 u2 s h
    unfold rampage_off
    simp [h]

/-- Witness for C10 (amended) at concrete states. -/
theorem c10_reentrancy_amended_witness :
    rampage_on 0 0 rampageState = rampageState ∧
    stop_cursor_takeover 0 initState = initState ∧
    (rampage_off 1000 (77, 88) 0 0 s10).rampage_exit_start_time = 1000 :=
  ⟨c10_reentrancy_amended.1 0 0 rampageState rfl,
   c10_reentrancy_amended.2.1 0 initState rfl,
   (c10_reentrancy_amended.2.2 1000 (77, 88) 0 0 s10 rfl).2.1⟩

/-- C10 counterexample: a cancel arriving while the RampageExit retreat
is already running is not a no-op: rampage_mode is still true during
the retreat, so rampage_off runs again and re-stamps the exit path. -/
theorem c10_counterexample :
    s10.rampage_mode = true ∧ s10.rampage_exit_running = true ∧
    s10.rampage_exit_start_time = 0 ∧
    (rampage_off 1000 (77, 88) 0 0 s10).rampage_exit_start_time = 1000 ∧
    (rampage_off 1000 (77, 88) 0 0 s10).rampage_exit_end_pos = (77, 88) ∧
    rampage_off 1000 (77, 88) 0 0 s10 ≠ s10 := by
  have hrm : s10.rampage_mode = true := rfl
  have ht : (rampage_off 1000 (77, 88) 0 0 s10).rampage_exit_start_time = 1000 := by
    unfold rampage_off
    simp [hrm]
  refine ⟨rfl, rfl, rfl, ht, ?_, ?_⟩
  · unfold rampage_off
    simp [hrm]
  · intro he
    have hc := congrArg SpriteState.rampage_exit_start_time he
    rw [ht] at hc
    exact absurd hc (by decide)

/-! C5: no velocity clamp in the cursor chase. -/

/-- C5 (amended): the cursor-chase tick of update_sprite_position stores
the post-friction velocity unchanged for the next tick: no clamp of
velocities below 0.05 (or any other magnitude) to zero exists in this
code path. -/
theorem c5_no_clamp_amended (hyp atd : ℚ → ℚ → ℚ) (now : ℤ) (c : ℤ × ℤ)
    (s : SpriteState) (hexit : s.rampage_exit_running = false)
    (hram : s.rampage_mode = true) :
    (update_sprite_position hyp atd now c s).vx = chaseVx s c ∧
    (update_sprite_position hyp atd now c s).vy = chaseVy s c ∧
    (update_sprite_position hyp atd now c s).prev_vx = chaseVx s c ∧
    (update_sprite_position hyp atd now c s).prev_vy = chaseVy s c := by
  unfold update_sprite_position
  simp only [hexit, hram, Bool.false_eq_true, if_false, if_true]
  dsimp only
  split_ifs <;> simp

/-- Witness for C5 (amended) on the concrete rampage state. -/
theorem c5_no_clamp_amended_witness :
    (update_sprite_position hypZero hypZero 0 (251, 125) rampageState).vx
        = chaseVx rampageState (251, 125) ∧
    (update_sprite_position hypZero hypZero 0 (251, 125) rampageState).vy
        = chaseVy rampageState (251, 125) ∧
    (update_sprite_position hypZero hypZero 0 (251, 125) rampageState).prev_vx
        = chaseVx rampageState (251, 125) ∧
    (update_sprite_position hypZero hypZero 0 (251, 125) rampageState).prev_vy
        = chaseVy rampageState (251, 125) :=
  c5_no_clamp_amended hypZero hypZero 0 (251, 125) rampageState rfl rfl

/-- C5 counterexample: in the cursor-chase mode a post-friction velocity
of magnitude 0.0225 (below the claimed 0.05 threshold) is carried to the
next tick as-is, not clamped to zero. -/
theorem c5_counterexample :
    chaseVx rampageState (251, 125) = 9 / 400 ∧
    |(9 : ℚ) / 400| < 1 / 20 ∧
    (update_sprite_position hypZero hypZero 0 (251, 125) rampageState).vx
        = 9 / 400 ∧
    (update_sprite_position hypZero hypZero 0 (251, 125) rampageState).prev_vx
        = 9 / 400 ∧
    (9 : ℚ) / 400 ≠ 0 := by
  have hvx : chaseVx rampageState (251, 125) = 9 / 400 := by
    norm_num [chaseVx, rampageState, initState, accel, friction, kiky_width]
  refine ⟨hvx, by rw [abs_of_pos] <;> norm_num, ?_, ?_, by norm_num⟩
  · norm_num [update_sprite_position, rampageState, initState, hypZero,
      chaseVx, chaseVy, chaseX, chaseY, accel, friction, parallax_factor,
      kiky_width, kiky_height, current_paw_interval]
  · norm_num [update_sprite_position, rampageState, initState, hypZero,
      chaseVx, chaseVy, chaseX, chaseY, accel, friction, parallax_factor,
      kiky_width, kiky_height, current_paw_interval]

/-! C7: paw spawn rule of the cursor chase. -/

/-- The spawn interval is monotonically non-increasing in speed. -/
theorem current_paw_interval_mono (a b : ℚ) (ha : 0 ≤ a) (hab : a ≤ b) :
    current_paw_interval b ≤ current_paw_interval a := by
  unfold current_paw_interval base_paw_interval spawn_rate_factor
  apply max_le_max le_rfl
  have h1 : (0 : ℚ) < 1 + 4 * a := by linarith
  have h2 : (0 : ℚ) < 1 + 4 * b := by linarith
  rw [div_le_div_iff₀ h2 h1]
  nlinarith

/-- C7: in the cursor-chase mode a mark is appended on a tick exactly
when (speed above 0.1 or acceleration above 0.5) and at least
current_paw_interval ms elapsed since the last spawn; the appended mark
carries a +10 vertical offset exactly at odd paw_step_index; the
interval is monotonically non-increasing in speed and floored at
min_paw_interval (200 ms). -/
theorem c7_paw_spawn (hyp atd : ℚ → ℚ → ℚ) (now : ℤ) (c : ℤ × ℤ)
    (s : SpriteState) (sp ac : ℚ)
    (hexit : s.rampage_exit_running = false) (hram : s.rampage_mode = true)
    (hsp : sp = hyp (chaseVx s c) (chaseVy s c))
    (hac : ac = hyp (chaseVx s c - s.prev_vx) (chaseVy s c - s.prev_vy)
        / (16 / 1000)) :
    ((update_sprite_position hyp atd now c s).paw_traces.length
        = s.paw_traces.length + 1 ↔
      (sp > 1 / 10 ∨ ac > 1 / 2) ∧
        ((now - s.last_paw_time : ℤ) : ℚ) ≥ current_paw_interval sp) ∧
    (¬ ((sp > 1 / 10 ∨ ac > 1 / 2) ∧
          ((now - s.last_paw_time : ℤ) : ℚ) ≥ current_paw_interval sp) →
      (update_sprite_position hyp atd now c s).paw_traces = s.paw_traces) ∧
    ((sp > 1 / 10 ∨ ac > 1 / 2) ∧
        ((now - s.last_paw_time : ℤ) : ℚ) ≥ current_paw_interval sp →
      (update_sprite_position hyp atd now c s).paw_traces
        = s.paw_traces ++
            [⟨chaseX s c + ((kiky_width / 2 : ℤ) : ℚ),
              chaseY s c + ((kiky_height / 2 : ℤ) : ℚ)
                + (if s.paw_step_index % 2 = 1 then (10 : ℚ) else 0),
              atd (chaseVy s c) (chaseVx s c), now⟩]) ∧
    (∀ a b : ℚ, 0 ≤ a → a ≤ b →
      current_paw_interval b ≤ current_paw_interval a) ∧
    (∀ q : ℚ, min_paw_interval ≤ current_paw_interval q) := by
  subst hsp hac
  refine ⟨?_, ?_, ?_, current_paw_interval_mono, fun q => le_max_left _ _⟩ <;>
  · unfold update_sprite_position
    simp only [hexit, hram, Bool.false_eq_true, if_false, if_true]
    dsimp only
    split_ifs <;> simp_all

/-- Witness for C7 on the concrete rampage state (no spawn: the zero
oracle yields speed and acceleration zero). -/
theorem c7_paw_spawn_witness :
    ((update_sprite_position hypZero hypZero 0 (251, 125)
          rampageState).paw_traces.length
        = rampageState.paw_traces.length + 1 ↔
      ((0 : ℚ) > 1 / 10 ∨ (0 : ℚ) / (16 / 1000) > 1 / 2) ∧
        ((0 - rampageState.last_paw_time : ℤ) : ℚ) ≥ current_paw_interval 0) ∧
    (¬ (((0 : ℚ) > 1 / 10 ∨ (0 : ℚ) / (16 / 1000) > 1 / 2) ∧
          ((0 - rampageState.last_paw_time : ℤ) : ℚ) ≥ current_paw_interval 0) →
      (update_sprite_position hypZero hypZero 0 (251, 125)
          rampageState).paw_traces = rampageState.paw_traces) ∧
    (((0 : ℚ) > 1 / 10 ∨ (0 : ℚ) / (16 / 1000) > 1 / 2) ∧
        ((0 - rampageState.last_paw_time : ℤ) : ℚ) ≥ current_paw_interval 0 →
      (update_sprite_position hypZero hypZero 0 (251, 125)
          rampageState).paw_traces
        = rampageState.paw_traces ++
            [⟨chaseX rampageState (251, 125) + ((kiky_width / 2 : ℤ) : ℚ),
              chaseY rampageState (251, 125) + ((kiky_height / 2 : ℤ) : ℚ)
                + (if rampageState.paw_step_index % 2 = 1 then (10 : ℚ) else 0),
              hypZero (chaseVy rampageState (251, 125))
                (chaseVx rampageState (251, 125)), 0⟩]) ∧
    (∀ a b : ℚ, 0 ≤ a → a ≤ b →
      current_paw_interval b ≤ current_paw_interval a) ∧
    (∀ q : ℚ, min_paw_interval ≤ current_paw_interval q) :=
  c7_paw_spawn hypZero hypZero 0 (251, 125) rampageState 0 (0 / (16 / 1000))
    rfl rfl rfl rfl

/-! C2: cancel during rampage with active takeover, then the exit
animation. -/

/-- Full description of rampage_off on a rampage state holding the
pointer resource. -/
theorem rampage_off_fields (now : ℤ) (pick : ℤ × ℤ) (u1 u2 : ℚ)
    (s : SpriteState) (hr : s.rampage_mode = true)
    (ha : s.effect_active = true) (hd : s.overrideDepth = 1)
    (hh : s.hHook = some 1) :
    (rampage_off now pick u1 u2 s).hHook = none ∧
    (rampage_off now pick u1 u2 s).overrideDepth = 0 ∧
    (rampage_off now pick u1 u2 s).rampage_exit_running = true ∧
    (rampage_off now pick u1 u2 s).rampage_exit_start_time = now ∧
    (rampage_off now pick u1 u2 s).rampage_exit_start_pos
        = (pyInt s.sprite_x, pyInt s.sprite_y) ∧
    (rampage_off now pick u1 u2 s).rampage_exit_end_pos = pick ∧
    (rampage_off now pick u1 u2 s).sprite_x = s.sprite_x ∧
    (rampage_off now pick u1 u2 s).sprite_y = s.sprite_y := by
  obtain ⟨g1, g2, g3, g4, g5, g6, g7, g8⟩ := stop_fields u1 s ha hd hh
  unfold rampage_off
  by_cases hdv : s.dialog_visible <;>
    simp [hr, ha, hdv, g1, g2, g3, g4, g5, g6, g7, g8]

/-- divided elapsed time at least one iff 1500 ms have passed. -/
theorem exit_t_ge_one (d : ℤ) :
    ((d : ℤ) : ℚ) / (rampage_exit_duration * 1000) ≥ 1 ↔ (1500 : ℤ) ≤ d := by
  have h : rampage_exit_duration * 1000 = (1500 : ℚ) := by
    norm_num [rampage_exit_duration]
  rw [h, ge_iff_le, one_le_div (by norm_num)]
  exact_mod_cast Iff.rfl

/-- C2 (amended): delivering the cancel in Rampage with an active
Takeover uninstalls the pointer filter and restores visibility within
the same rampage_off call; the exit interpolation is linear over 1.5 s
from the int-truncated position at cancel time to the chosen off-screen
point; at the first tick with t at least 1 the position equals that
point exactly and the mode returns to idle (rampage_mode false,
rampage_exit_running false). -/
theorem c2_cancel_and_exit (now : ℤ) (pick : ℤ × ℤ) (u1 u2 : ℚ)
    (hyp atd : ℚ → ℚ → ℚ) (now' : ℤ) (c : ℤ × ℤ) (s : SpriteState)
    (hr : s.rampage_mode = true) (ha : s.effect_active = true)
    (hd : s.overrideDepth = 1) (hh : s.hHook = some 1) :
    (rampage_off now pick u1 u2 s).hHook = none ∧
    (rampage_off now pick u1 u2 s).overrideDepth = 0 ∧
    (rampage_off now pick u1 u2 s).rampage_exit_running = true ∧
    (rampage_off now pick u1 u2 s).rampage_exit_end_pos = pick ∧
    ((1500 : ℤ) ≤ now' - now →
      (update_sprite_position hyp atd now' c
          (rampage_off now pick u1 u2 s)).sprite_x = (pick.1 : ℚ) ∧
      (update_sprite_position hyp atd now' c
          (rampage_off now pick u1 u2 s)).sprite_y = (pick.2 : ℚ) ∧
      (update_sprite_position hyp atd now' c
          (rampage_off now pick u1 u2 s)).rampage_mode = false ∧
      (update_sprite_position hyp atd now' c
          (rampage_off now pick u1 u2 s)).rampage_exit_running = false) ∧
    (now' - now < 1500 →
      (update_sprite_position hyp atd now' c
          (rampage_off now pick u1 u2 s)).sprite_x
        = ((pyInt s.sprite_x : ℤ) : ℚ)
          + ((pick.1 : ℚ) - ((pyInt s.sprite_x : ℤ) : ℚ))
            * (((now' - now : ℤ) : ℚ) / (rampage_exit_duration * 1000)) ∧
      (update_sprite_position hyp atd now' c
          (rampage_off now pick u1 u2 s)).sprite_y
        = ((pyInt s.sprite_y : ℤ) : ℚ)
          + ((pick.2 : ℚ) - ((pyInt s.sprite_y : ℤ) : ℚ))
            * (((now' - now : ℤ) : ℚ) / (rampage_exit_duration * 1000))) := by
  obtain ⟨g1, g2, g3, g4, g5, g6, g7, g8⟩ :=
    rampage_off_fields now pick u1 u2 s hr ha hd hh
  refine ⟨g1, g2, g3, g6, ?_, ?_⟩
  · intro hge
    unfold update_sprite_position
    rw [g3]
    rw [if_pos rfl]
    rw [g4]
    rw [if_pos ((exit_t_ge_one (now' - now)).2 hge)]
    simp [g6]
  · intro hlt
    unfold update_sprite_position
    rw [g3]
    rw [if_pos rfl]
    rw [g4]
    rw [if_neg (by
      rw [exit_t_ge_one (now' - now)]
      omega)]
    simp [g5, g6]

/-- Witness for C2 (amended) on the concrete mid-takeover state, one
tick at completion time and one halfway through the retreat. -/
theorem c2_cancel_and_exit_witness :
    (rampage_off 0 (100, 0) 0 0 s2c).hHook = none ∧
    (rampage_off 0 (100, 0) 0 0 s2c).overrideDepth = 0 ∧
    ((update_sprite_position hypZero hypZero 1500 (0, 0)
        (rampage_off 0 (100, 0) 0 0 s2c)).sprite_x
        = ((((100, 0) : ℤ × ℤ).1 : ℤ) : ℚ) ∧
     (update_sprite_position hypZero hypZero 1500 (0, 0)
        (rampage_off 0 (100, 0) 0 0 s2c)).sprite_y
        = ((((100, 0) : ℤ × ℤ).2 : ℤ) : ℚ) ∧
     (update_sprite_position hypZero hypZero 1500 (0, 0)
        (rampage_off 0 (100, 0) 0 0 s2c)).rampage_mode = false ∧
     (update_sprite_position hypZero hypZero 1500 (0, 0)
        (rampage_off 0 (100, 0) 0 0 s2c)).rampage_exit_running = false) ∧
    ((update_sprite_position hypZero hypZero 750 (0, 0)
        (rampage_off 0 (100, 0) 0 0 s2c)).sprite_x
      = ((pyInt s2c.sprite_x : ℤ) : ℚ)
        + (((((100, 0) : ℤ × ℤ).1 : ℤ) : ℚ) - ((pyInt s2c.sprite_x : ℤ) : ℚ))
          * (((750 - 0 : ℤ) : ℚ) / (rampage_exit_duration * 1000)) ∧
     (update_sprite_position hypZero hypZero 750 (0, 0)
        (rampage_off 0 (100, 0) 0 0 s2c)).sprite_y
      = ((pyInt s2c.sprite_y : ℤ) : ℚ)
        + (((((100, 0) : ℤ × ℤ).2 : ℤ) : ℚ) - ((pyInt s2c.sprite_y : ℤ) : ℚ))
          * (((750 - 0 : ℤ) : ℚ) / (rampage_exit_duration * 1000))) := by
  have h1 := c2_cancel_and_exit 0 (100, 0) 0 0 hypZero hypZero 1500 (0, 0) s2c
    rfl rfl rfl rfl
  have h2 := c2_cancel_and_exit 0 (100, 0) 0 0 hypZero hypZero 750 (0, 0) s2c
    rfl rfl rfl rfl
  exact ⟨h1.1, h1.2.1, h1.2.2.2.2.1 (by norm_num), h2.2.2.2.2.2 (by norm_num)⟩

/-- C2 counterexample: the retreat is not linear from the position at
cancel time when that position is fractional: rampage_off truncates it
to integers first.  From x = 1/2 toward x = 100, the code's halfway
point is 50, the claimed linear path's is 201/4. -/
theorem c2_counterexample :
    s2c.rampage_mode = true ∧ s2c.effect_active = true ∧
    s2c.sprite_x = 1 / 2 ∧
    (update_sprite_position hypZero hypZero 750 (0, 0)
        (rampage_off 0 (100, 0) 0 0 s2c)).sprite_x = 50 ∧
    s2c.sprite_x + ((100 : ℚ) - s2c.sprite_x)
        * (((750 : ℤ) : ℚ) / (rampage_exit_duration * 1000)) = 201 / 4 ∧
    (50 : ℚ) ≠ 201 / 4 := by
  refine ⟨rfl, rfl, rfl, ?_, ?_, by norm_num⟩
  · norm_num [update_sprite_position, rampage_off, stop_cursor_takeover,
      stop_cursor_takeover_inj, stopTryBody, restoreOverrideCursor,
      MouseHook.stop, schedule_next_cursor_takeover, takeoverWait, hide_dialog,
      schedule_next_dialog, dialogWait, pyInt, s2c, rampageState, initState,
      finalize_rampage_off, hypZero, rampage_exit_duration, min_factor,
      original_takeover_min, original_takeover_max]
  · norm_num [s2c, rampageState, initState, rampage_exit_duration]

/-! C6: trail mark lifetime, mask staleness and fade alpha. -/

/-- C6 (amended): a render pass keeps a mark while elapsed is at most
fade_time (2000 ms) and removes it only when elapsed strictly exceeds
it; the mask pass applies no expiry at all, so any mark still in the
buffer is exposed regardless of age; the drawn alpha is the quantized
linear fade (255 - floor(255 elapsed / 2000)) / 255 with value 1 at
birth, 128/255 at 1000 ms, 0 at 2000 ms, and within 1/255 of the ideal
1 - elapsed/2000 throughout the window. -/
theorem c6_trail_amended (p : Paw) (now : ℤ) (traces : List Paw) (e : ℤ)
    (he0 : 0 ≤ e) (he2 : e ≤ fade_time) :
    (p ∈ paintPassSurviving now traces ↔
      p ∈ traces ∧ now - p.birth ≤ fade_time) ∧
    (p ∈ traces → pawMaskRect p ∈ maskPaws traces) ∧
    pawOpacity p.birth p = 1 ∧
    pawOpacity (p.birth + 1000) p = 128 / 255 ∧
    pawOpacity (p.birth + fade_time) p = 0 ∧
    |pawOpacity (p.birth + e) p - (1 - (e : ℚ) / ((fade_time : ℤ) : ℚ))|
      ≤ 1 / 255 := by
  have hft : ((fade_time : ℤ) : ℚ) = 2000 := by norm_num [fade_time]
  refine ⟨?_, ?_, ?_, ?_, ?_, ?_⟩
  · simp [paintPassSurviving, List.mem_filter, not_lt]
  · exact fun hmem => List.mem_map_of_mem pawMaskRect hmem
  · unfold pawOpacity pyInt
    norm_num
  · unfold pawOpacity pyInt
    rw [hft]
    simp only [add_sub_cancel_left]
    norm_num
  · unfold pawOpacity pyInt
    rw [hft]
    simp only [add_sub_cancel_left]
    norm_num [fade_time]
  · unfold pawOpacity pyInt
    rw [hft]
    simp only [add_sub_cancel_left]
    have hq0 : (0 : ℚ) ≤ 255 * (e : ℚ) / 2000 := by positivity
    rw [if_pos hq0]
    have h1 : (⌊(255 : ℚ) * (e : ℚ) / 2000⌋ : ℚ) ≤ 255 * (e : ℚ) / 2000 :=
      Int.floor_le _
    have h2 : (255 : ℚ) * (e : ℚ) / 2000 < ⌊(255 : ℚ) * (e : ℚ) / 2000⌋ + 1 :=
      Int.lt_floor_add_one _
    rw [abs_le]
    constructor <;> push_cast at * <;> linarith

/-- Witness for C6 (amended) at the mark born at 0, read at 500 ms,
with e = 1000. -/
theorem c6_trail_amended_witness :
    (mark0 ∈ paintPassSurviving 500 [mark0] ↔
      mark0 ∈ [mark0] ∧ 500 - mark0.birth ≤ fade_time) ∧
    (mark0 ∈ [mark0] → pawMaskRect mark0 ∈ maskPaws [mark0]) ∧
    pawOpacity mark0.birth mark0 = 1 ∧
    pawOpacity (mark0.birth + 1000) mark0 = 128 / 255 ∧
    pawOpacity (mark0.birth + fade_time) mark0 = 0 ∧
    |pawOpacity (mark0.birth + 1000) mark0
        - (1 - ((1000 : ℤ) : ℚ) / ((fade_time : ℤ) : ℚ))| ≤ 1 / 255 :=
  c6_trail_amended mark0 500 [mark0] 1000 (by norm_num)
    (by norm_num [fade_time])

/-- C6 counterexample: at exactly birth + 2000 ms a render pass still
keeps (and draws) the mark, and the mask built during a tick at 2500 ms
still contains the expired mark's rectangle: the mask pass never
purges. -/
theorem c6_counterexample :
    paintPassSurviving (mark0.birth + fade_time) [mark0] = [mark0] ∧
    (update_sprite_position hypZero hypZero 2500 (250, 125) s6).paw_traces
        = [mark0] ∧
    maskPaws [mark0] = [(-25, -25, 50, 50)] ∧
    mark0.birth + fade_time ≤ 2500 := by
  refine ⟨?_, ?_, ?_, by norm_num [mark0, fade_time]⟩
  · norm_num [paintPassSurviving, mark0, fade_time, List.filter]
  · norm_num [update_sprite_position, s6, rampageState, initState, hypZero,
      chaseVx, chaseVy, chaseX, chaseY, accel, friction, parallax_factor,
      kiky_width, kiky_height, current_paw_interval, mark0]
  · norm_num [maskPaws, pawMaskRect, mark0, pyInt, paw_width, paw_height]
    rw [show ((-25 : ℚ)) = ((-25 : ℤ) : ℚ) from by norm_num, Int.ceil_intCast]

/-! C8: the UDP command handler. -/

/-- C8: a datagram that is not valid UTF-8 makes handle_broadcast raise
an uncaught UnicodeDecodeError (modelled as Except.error); a valid
payload triggers rampage_off exactly when it equals the literal after
whitespace trimming, and any other payload is ignored. -/
theorem c8_broadcast_crash :
    handle_broadcast 0 (7, 7) 0 0 [[255]] rampageState = Except.error () ∧
    handle_broadcast 0 (7, 7) 0 0 [wsGifts] rampageState
        = Except.ok (rampage_off 0 (7, 7) 0 0 rampageState) ∧
    handle_broadcast 0 (7, 7) 0 0 [otherMsg] rampageState
        = Except.ok rampageState := by
  exact ⟨rfl, rfl, rfl⟩

/-! C9: consecutive scripted runs. -/

/-- C9 (amended): the scripted-run invariant (trigger flag set implies
no run in flight) is preserved by every event; a trigger arriving while
a run is in flight is a no-op, so consecutive runs never overlap and the
second run starts no earlier than the first completes; and a run stays
in flight until its full 5 s duration has elapsed.  (The 500 ms
off-screen hold does not gate the next trigger: see the
counterexample.) -/
theorem c9_no_overlap_amended (hyp atd : ℚ → ℚ → ℚ) :
    (∀ e : NREvent, ∀ s : SpriteState, NRInv s → NRInv (nrStep hyp atd e s)) ∧
    (∀ now : ℤ, ∀ p1 p2 : ℤ × ℤ, ∀ s : SpriteState, NRInv s →
      s.non_rampage_running = true → trigger_non_rampage_run now p1 p2 s = s) ∧
    (∀ now : ℤ, ∀ c : ℤ × ℤ, ∀ s : SpriteState,
      s.rampage_exit_running = false → s.rampage_mode = false →
      s.non_rampage_running = true →
      ((now - s.non_rampage_run_start_time : ℤ) : ℚ) / 1000
          / non_rampage_duration < 1 →
      (update_sprite_position hyp atd now c s).non_rampage_running = true) := by
  refine ⟨?_, ?_, ?_⟩
  · intro e s h
    cases e with
    | tick now c =>
      simp only [nrStep]
      unfold update_sprite_position NRInv at *
      dsimp only
      split_ifs <;> simp_all
    | trig now p1 p2 =>
      simp only [nrStep]
      unfold trigger_non_rampage_run NRInv at *
      split_ifs <;> simp_all
    | offscreen t =>
      simp only [nrStep]
      unfold move_sprite_offscreen NRInv at *
      split_ifs <;> simp_all
  · intro now p1 p2 s hinv hrun
    have hct : s.non_rampage_can_trigger_run = false := by
      cases hc : s.non_rampage_can_trigger_run
      · rfl
      · rw [hinv hc] at hrun
        cases hrun
    unfold trigger_non_rampage_run
    rw [if_pos (Or.inr (Or.inr (by simp [hct])))]
  · intro now c s hexit hram hrun hlt
    unfold update_sprite_position
    simp only [hexit, hram, hrun, Bool.false_eq_true, if_false, if_true]
    rw [if_neg (not_le.mpr hlt)]
    split_ifs <;> simp

/-- Witness for C9 (amended): the trigger is a no-op on the in-flight
run s91, and the run is still in flight at 1000 ms. -/
theorem c9_no_overlap_amended_witness :
    trigger_non_rampage_run 9999 (1, 1) (2, 2) s91 = s91 ∧
    (update_sprite_position hypZero hypZero 1000 (0, 0)
        s91).non_rampage_running = true ∧
    NRInv (nrStep hypZero hypZero (NREvent.offscreen 700) s91) := by
  refine ⟨(c9_no_overlap_amended hypZero hypZero).2.1 9999 (1, 1) (2, 2) s91
      ?_ ?_,
    (c9_no_overlap_amended hypZero hypZero).2.2 1000 (0, 0) s91 ?_ ?_ ?_ ?_,
    (c9_no_overlap_amended hypZero hypZero).1 (NREvent.offscreen 700) s91 ?_⟩
  · norm_num [NRInv, s91, trigger_non_rampage_run, initState]
  · norm_num [s91, trigger_non_rampage_run, initState]
  · norm_num [s91, trigger_non_rampage_run, initState]
  · norm_num [s91, trigger_non_rampage_run, initState]
  · norm_num [s91, trigger_non_rampage_run, initState]
  · norm_num [s91, trigger_non_rampage_run, initState, non_rampage_duration]
  · norm_num [NRInv, s91, trigger_non_rampage_run, initState]

/-- C9 counterexample: the first run completes at 5000 ms and the
trigger flag is re-enabled right there, so a second run can start at
5100 ms, before the 500 ms off-screen hold has elapsed: the second
start is not at or after completion + 500 ms. -/
theorem c9_counterexample :
    s91.non_rampage_running = true ∧
    s91.non_rampage_run_start_time = 0 ∧
    s92.non_rampage_running = false ∧
    s92.non_rampage_can_trigger_run = true ∧
    s93.non_rampage_running = true ∧
    s93.non_rampage_run_start_time = 5100 ∧
    (5100 : ℤ) < 5000 + 500 := by
  refine ⟨?_, ?_, ?_, ?_, ?_, ?_, by norm_num⟩ <;>
    norm_num [s93, s92, s91, update_sprite_position, trigger_non_rampage_run,
      initState, finalize_rampage_off, non_rampage_duration, hypZero,
      min_paw_interval, base_paw_interval, spawn_rate_factor]

end Kiky
